import Mathlib

/-!
# Verification of the Aibets server variants

This file gives a shallow embedding, in Lean 4, of the request handlers of the
Aibets repository: a collection of near-duplicate Express servers that fetch
data from an upstream API (football statistics or Deriv OHLC candles), build a
natural-language prompt around the fetched data, send the prompt to an LLM
endpoint, and relay the model's JSON answer to the client.

The embedding follows the JavaScript source:
* JSON values are the `Json` inductive; `undefined` is modelled as `none` in
  `Option Json` (a JSON document can never contain `undefined`).
* JavaScript truthiness, property access (including the `TypeError` thrown when
  reading a property of `null`/`undefined`), strict equality, and template
  string interpolation are modelled by `truthy`, `jsProp`/`jsPropO`,
  `BEq`/`DecidableEq` on `Json`, and `jsToString`.
* Outbound HTTP/WebSocket calls are oracles passed to each handler as function
  arguments; each handler returns the list of outbound calls it issued (its
  trace) together with the HTTP response it sends.
* `JSON.parse` is a JavaScript builtin and is modelled as an oracle parameter
  `parse : String → Option Json` (`none` models a thrown `SyntaxError`).
-/

/-- A JSON value, as decoded by `response.json()` / produced by `res.json`.
Numbers are modelled as integers: no claim in this development depends on
fractional or floating-point behaviour. -/
inductive Json where
  | null
  | bool (b : Bool)
  | num (n : Int)
  | str (s : String)
  | arr (elems : List Json)
  | obj (members : List (String × Json))
deriving Repr, Inhabited

mutual

/-- Structural (strict) equality on JSON values. -/
def Json.beq : Json → Json → Bool
  | .null, .null => true
  | .bool a, .bool b => a == b
  | .num a, .num b => a == b
  | .str a, .str b => a == b
  | .arr a, .arr b => Json.beqList a b
  | .obj a, .obj b => Json.beqObj a b
  | _, _ => false

def Json.beqList : List Json → List Json → Bool
  | [], [] => true
  | a :: as', b :: bs => Json.beq a b && Json.beqList as' bs
  | _, _ => false

def Json.beqObj : List (String × Json) → List (String × Json) → Bool
  | [], [] => true
  | (k, a) :: as', (l, b) :: bs => k == l && Json.beq a b && Json.beqObj as' bs
  | _, _ => false

end

instance : BEq Json := ⟨Json.beq⟩

mutual

theorem Json.beq_iff : ∀ a b : Json, Json.beq a b = true ↔ a = b
  | .null, b => by cases b <;> simp [Json.beq]
  | .bool x, b => by cases b <;> simp [Json.beq]
  | .num x, b => by cases b <;> simp [Json.beq]
  | .str x, b => by cases b <;> simp [Json.beq]
  | .arr xs, b => by
      cases b <;> simp [Json.beq, Json.beqList_iff xs]
  | .obj xs, b => by
      cases b <;> simp [Json.beq, Json.beqObj_iff xs]

theorem Json.beqList_iff : ∀ as' bs : List Json, Json.beqList as' bs = true ↔ as' = bs
  | [], bs => by cases bs <;> simp [Json.beqList]
  | a :: as', bs => by
      cases bs with
      | nil => simp [Json.beqList]
      | cons b bs => simp [Json.beqList, Json.beq_iff a b, Json.beqList_iff as' bs]

theorem Json.beqObj_iff :
    ∀ as' bs : List (String × Json), Json.beqObj as' bs = true ↔ as' = bs
  | [], bs => by cases bs <;> simp [Json.beqObj]
  | (k, a) :: as', bs => by
      cases bs with
      | nil => simp [Json.beqObj]
      | cons b bs =>
          obtain ⟨l, v⟩ := b
          simp [Json.beqObj, Json.beq_iff a v, Json.beqObj_iff as' bs, and_assoc]

end

instance : LawfulBEq Json where
  rfl := by intro a; exact (Json.beq_iff a a).mpr rfl
  eq_of_beq := by intro a b h; exact (Json.beq_iff a b).mp h

instance : DecidableEq Json := fun a b =>
  decidable_of_iff (Json.beq a b = true) (Json.beq_iff a b)

/-- JavaScript truthiness of a JSON value (`NaN` cannot occur in a decoded
JSON document; `0` and `""` are the falsy non-null scalars). -/
def truthy : Json → Bool
  | .null => false
  | .bool b => b
  | .num n => n != 0
  | .str s => s != ""
  | .arr _ => true
  | .obj _ => true

/-- Truthiness of a possibly-`undefined` value (`undefined` is falsy). -/
def truthyOpt : Option Json → Bool
  | none => false
  | some j => truthy j

/-- First binding of a key in an object's member list (later duplicates are
shadowed, as in a decoded JavaScript object). -/
def objFind (ms : List (String × Json)) (k : String) : Option Json :=
  (ms.find? (fun p => p.1 == k)).map Prod.snd

/-- JavaScript property read `j[k]`, specialised to the property names the
sources use. Reading from `null` throws a `TypeError`; arrays and strings
expose `length`; any other absent property is `undefined` (`none`).
(String numeric-index properties are modelled by `jsIndex`.) -/
def jsProp : Json → String → Except String (Option Json)
  | .null, _ => .error "TypeError: Cannot read properties of null"
  | .obj ms, k => .ok (objFind ms k)
  | .arr xs, k => .ok (if k == "length" then some (.num xs.length) else none)
  | .str s, k => .ok (if k == "length" then some (.num s.length) else none)
  | _, _ => .ok none

/-- JavaScript indexed read `j[i]` for a natural-number index. -/
def jsIndex : Json → Nat → Except String (Option Json)
  | .null, _ => .error "TypeError: Cannot read properties of null"
  | .arr xs, i => .ok (xs.get? i)
  | .str s, i => .ok ((s.data.get? i).map (fun c => .str (String.singleton c)))
  | .obj ms, i => .ok (objFind ms (toString i))
  | _, _ => .ok none

/-- Property read on a possibly-`undefined` base: `undefined.k` throws. -/
def jsPropO : Option Json → String → Except String (Option Json)
  | none, _ => .error "TypeError: Cannot read properties of undefined"
  | some j, k => jsProp j k

/-- Indexed read on a possibly-`undefined` base. -/
def jsIndexO : Option Json → Nat → Except String (Option Json)
  | none, _ => .error "TypeError: Cannot read properties of undefined"
  | some j, i => jsIndex j i

/-- `typeof v === 'string'` for a possibly-`undefined` value. -/
def isStrOpt : Option Json → Bool
  | some (.str _) => true
  | _ => false

/-- `v > 0` as the sources apply it to a `length` read: true exactly for a
positive number (string coercion of exotic `length` values is not modelled;
no claim depends on it). -/
def numGtZero : Option Json → Bool
  | some (.num n) => 0 < n
  | _ => false

mutual

/-- JavaScript string coercion (template-literal interpolation) of a JSON
value: `String(v)`. Arrays join their elements with `,` with `null` rendered
empty; objects render as `[object Object]`. -/
def jsToString : Json → String
  | .null => "null"
  | .bool true => "true"
  | .bool false => "false"
  | .num n => toString n
  | .str s => s
  | .arr xs => String.intercalate "," (jsToStringItems xs)
  | .obj _ => "[object Object]"

def jsToStringItems : List Json → List String
  | [] => []
  | .null :: rest => "" :: jsToStringItems rest
  | x :: rest => jsToString x :: jsToStringItems rest

end

/-- String coercion of a possibly-`undefined` value. -/
def jsToStringOpt : Option Json → String
  | none => "undefined"
  | some j => jsToString j

/-- Character-list kernel of `escJson`. -/
def escJsonChars : List Char → List Char
  | [] => []
  | c :: r =>
      if c = '\\' then '\\' :: '\\' :: escJsonChars r
      else if c = '"' then '\\' :: '"' :: escJsonChars r
      else c :: escJsonChars r

/-- Escape a string for JSON output (backslash and quote; control characters
do not occur in the values the claims touch). -/
def escJson (s : String) : String := String.mk (escJsonChars s.data)

/-- Does `pat` occur as a prefix of `l`? (Character-exact, as JavaScript string
search is.) -/
def charsPrefix : List Char → List Char → Bool
  | [], _ => true
  | _ :: _, [] => false
  | p :: ps, c :: cs => p == c && charsPrefix ps cs

/-- Replace the first occurrence of `p :: ps` in the list (JavaScript
`String.prototype.replace` with a string pattern). -/
def replaceFirstChars (p : Char) (ps rep : List Char) : List Char → List Char
  | [] => []
  | c :: cs =>
      if charsPrefix (p :: ps) (c :: cs) then rep ++ (c :: cs).drop (ps.length + 1)
      else c :: replaceFirstChars p ps rep cs

/-- JavaScript `s.replace(pat, rep)` with a non-empty string pattern:
only the first occurrence is replaced. -/
def replaceFirst (s pat rep : String) : String :=
  match pat.data with
  | [] => s
  | p :: ps => String.mk (replaceFirstChars p ps rep.data s.data)

/-- Replace every occurrence of `p :: ps` (JavaScript `replace` with a global
regexp made of literal characters). Structural recursion on a fuel counter so
the definition evaluates inside the kernel; the fuel is the input length,
which bounds the number of steps. -/
def replaceAllChars (p : Char) (ps rep : List Char) : Nat → List Char → List Char
  | 0, l => l
  | _, [] => []
  | fuel + 1, c :: cs =>
      if charsPrefix (p :: ps) (c :: cs) then
        rep ++ replaceAllChars p ps rep fuel ((c :: cs).drop (ps.length + 1))
      else c :: replaceAllChars p ps rep fuel cs

/-- JavaScript `s.replace(/pat/g, rep)` for a literal, non-empty pattern. -/
def replaceAllStr (s pat rep : String) : String :=
  match pat.data with
  | [] => s
  | p :: ps => String.mk (replaceAllChars p ps rep.data s.data.length s.data)

mutual

/-- `JSON.stringify` (compact form, no indentation). -/
def jsonStringify : Json → String
  | .null => "null"
  | .bool true => "true"
  | .bool false => "false"
  | .num n => toString n
  | .str s => "\"" ++ escJson s ++ "\""
  | .arr xs => "[" ++ String.intercalate "," (jsonStringifyItems xs) ++ "]"
  | .obj ms => "\x7b" ++ String.intercalate "," (jsonStringifyMembers ms) ++ "\x7d"

def jsonStringifyItems : List Json → List String
  | [] => []
  | x :: rest => jsonStringify x :: jsonStringifyItems rest

def jsonStringifyMembers : List (String × Json) → List String
  | [] => []
  | (k, v) :: rest => ("\"" ++ escJson k ++ "\":" ++ jsonStringify v) :: jsonStringifyMembers rest

end

/-- Array/string read at an integer index: JavaScript yields `undefined` for a
negative index. -/
def idxGet (l : List α) (i : Int) : Option α :=
  if i < 0 then none else l.get? i.toNat

/-- `b` occurs as a substring of `a`. -/
def containsSub (a b : String) : Prop := ∃ l r, a = l ++ b ++ r

instance {ε α : Type} [DecidableEq ε] [DecidableEq α] : DecidableEq (Except ε α) := fun a b =>
  match a, b with
  | .error e, .error f =>
      match decEq e f with
      | isTrue h => isTrue (h ▸ rfl)
      | isFalse h => isFalse (fun c => h (Except.error.inj c))
  | .ok x, .ok y =>
      match decEq x y with
      | isTrue h => isTrue (h ▸ rfl)
      | isFalse h => isFalse (fun c => h (Except.ok.inj c))
  | .error _, .ok _ => isFalse (fun c => Except.noConfusion c)
  | .ok _, .error _ => isFalse (fun c => Except.noConfusion c)

/-- An HTTP response as sent by `res.status(...).json(...)`. -/
structure HttpResp where
  status : Nat
  body : Json
deriving Repr, DecidableEq

/-- The `{ error: msg }` body used by every error response in the sources. -/
def errObj (msg : String) : Json := .obj [("error", .str msg)]

example : truthy (.str "") = false := by decide
example : jsProp (.obj [("error", .str "x")]) "error" = .ok (some (.str "x")) := by decide
example : jsProp .null "error" = .error "TypeError: Cannot read properties of null" := by decide
example : jsToString (.arr [.num 1, .null, .str "a"]) = "1,,a" := by decide
example : jsonStringify (.obj [("a", .arr [.num 1, .bool true])]) = "\x7b\"a\":[1,true]\x7d" := by decide
example : idxGet [1, 2, 3] (-1) = none := by decide
example : replaceFirst "a/b/c" "/" "" = "ab/c" := by decide
example : replaceAllStr "x``` ```json y" "```" "" = "x json y" := by decide

/-!
## `fetchFootballData` (server.js, first variant)

The helper issues one GET request against the apifootball.com API and
post-processes the decoded JSON body:

  if (!response.ok) throw ...;
  const data = await response.json();
  if (data.error) throw ...;
  if (data.length === 1 && typeof data[0] === 'string') return [];
  return data;

It is modelled as a function of the response's `ok` flag and decoded payload
(`response.json()` is assumed to have produced a JSON document). -/
def fetchFootballData (ok : Bool) (data : Json) : Except String Json := do
  if !ok then throw "Football API error! Status: not ok" else
  let err ← jsProp data "error"
  if truthyOpt err then throw "Football API Error" else
  let len ← jsProp data "length"
  if len == some (.num 1) then
    let d0 ← jsIndex data 0
    if isStrOpt d0 then return .arr [] else return data
  else return data

/-- Declarative predicate: the decoded payload has an `error` member (whatever
its value) — the reading of C9's "carries an error field". -/
def hasErrorField : Json → Bool
  | .obj ms => (objFind ms "error").isSome
  | _ => false

/-- Declarative predicate: the payload's `error` member exists and is truthy —
the condition `data.error` actually tested by the code. -/
def errorFieldTruthy : Json → Bool
  | .obj ms => truthyOpt (objFind ms "error")
  | _ => false

/-- Declarative predicate: the payload's `length` property is the number 1 —
`data.length === 1`: true for a one-element array, a one-character string,
and an object whose `length` member is the number 1. -/
def lengthEqOne : Json → Bool
  | .arr xs => xs.length == 1
  | .str s => s.length == 1
  | .obj ms => objFind ms "length" == some (.num 1)
  | _ => false

/-- Declarative predicate: the payload's element at index 0 is a string —
`typeof data[0] === 'string'`. -/
def index0IsString : Json → Bool
  | .arr xs => isStrOpt (xs.get? 0)
  | .str s => s ≠ ""
  | .obj ms => isStrOpt (objFind ms "0")
  | _ => false

example : fetchFootballData true (.arr [.str "No event found!"]) = .ok (.arr []) := by decide
example : fetchFootballData true (.obj [("error", .str "404")]) = .error "Football API Error" := by decide
example : fetchFootballData false .null = .error "Football API error! Status: not ok" := by decide
example : fetchFootballData true (.str "x") = .ok (.arr []) := by decide
example : fetchFootballData true (.obj [("error", .str "")]) = .ok (.obj [("error", .str "")]) := by decide

/-!
## server.js (first variant): routes and the fixtures endpoint

Dates are modelled symbolically: `DateVal.today` stands for
`new Date().toISOString().slice(0, 10)` and `DateVal.todayPlus n` for the same
formatting of `Date.now() + n*24*60*60*1000` (UTC has no daylight-saving jumps,
so this is exactly `n` days ahead). -/
inductive DateVal where
  | today
  | todayPlus (n : Nat)
  | lit (s : String)
deriving Repr, DecidableEq

/-- The query parameters `fetchFootballData` is called with (the `APIkey`
parameter, constant across calls, is omitted). -/
structure FbParams where
  action : String
  match_id : Option String := none
  league_id : Option String := none
  fromD : Option DateVal := none
  toD : Option DateVal := none
deriving Repr, DecidableEq

/-- An outbound call made while handling a request. -/
inductive Ev where
  | fetchFootball (p : FbParams)
  | llmCall (prompt : String)
deriving Repr, DecidableEq

/-- Filter step of `GET /api/fixtures/:leagueId`:
`fixtureList.filter(fixture => fixture.match_status === '')`.
A `null` element makes the property read throw (caught by the route's
`try/catch`). -/
def filterUpcoming : List Json → Except String (List Json)
  | [] => .ok []
  | f :: rest => do
      let st ← jsProp f "match_status"
      let tail ← filterUpcoming rest
      if st == some (.str "") then return f :: tail else return tail

/-- One member of a `res.json` object literal: a property whose value is
`undefined` is dropped by JSON serialisation. -/
def mkEntry (k : String) : Option Json → List (String × Json)
  | none => []
  | some v => [(k, v)]

/-- Map step of `GET /api/fixtures/:leagueId`: each upcoming fixture becomes
`{ id, leagueId, name: hometeam + " vs " + awayteam, homeTeamName,
awayTeamName, date }`. -/
def fixtureRow (f : Json) : Except String Json := do
  let id ← jsProp f "match_id"
  let lg ← jsProp f "league_id"
  let hn ← jsProp f "match_hometeam_name"
  let an ← jsProp f "match_awayteam_name"
  let dt ← jsProp f "match_date"
  return .obj (mkEntry "id" id ++ mkEntry "leagueId" lg ++
    [("name", .str (jsToStringOpt hn ++ " vs " ++ jsToStringOpt an))] ++
    mkEntry "homeTeamName" hn ++ mkEntry "awayTeamName" an ++ mkEntry "date" dt)

/-- The query of `GET /api/fixtures/:leagueId`: the events of the league in
the window from today to fourteen days ahead. -/
def fixturesParams (leagueId : String) : FbParams :=
  { action := "get_events", league_id := some leagueId,
    fromD := some .today, toD := some (.todayPlus 14) }

/-- `GET /api/fixtures/:leagueId`: fetch the events of the league between
today and fourteen days ahead, keep the fixtures whose `match_status` is the
empty string, and map them to the reduced shape. Errors thrown anywhere in the
body are caught and answered with HTTP 500. -/
def fixturesHandler (leagueId : String) (env : FbParams → Bool × Json) :
    List Ev × HttpResp :=
  let p : FbParams := fixturesParams leagueId
  let (ok, data) := env p
  let result : Except String Json := do
    let fixtures ← fetchFootballData ok data
    let fixtureList := match fixtures with | .arr xs => xs | _ => []
    let upcoming ← filterUpcoming fixtureList
    let rows ← upcoming.mapM fixtureRow
    return .arr rows
  match result with
  | .ok body => ([.fetchFootball p], ⟨200, body⟩)
  | .error e => ([.fetchFootball p], ⟨500, errObj e⟩)

/-!
## server.js (first variant): `POST /api/analyze` -/

/-- The request body of `POST /api/analyze`; a missing member is `none`. -/
structure BodyV1 where
  fixtureId : Option Json := none
  leagueId : Option Json := none

/-- `xs.find(s => s[key] === target)` on a JSON value: a `TypeError` if the
value is not an array, otherwise the first element whose `key` member is
strictly equal to `target` (`undefined === undefined` holds). -/
def jsFindByProp (j : Json) (key : String) (target : Option Json) :
    Except String (Option Json) :=
  match j with
  | .arr xs => findAux xs
  | _ => .error "TypeError: find is not a function"
where
  findAux : List Json → Except String (Option Json)
    | [] => .ok none
    | x :: rest => do
        let v ← jsProp x key
        if v == target then return some x else findAux rest

/-- The head-to-head filter of `POST /api/analyze`: keep the fetched matches
between the two teams, then `slice(0, 5)`. -/
def h2hFilterAux (hsId asId : Option Json) : List Json → Except String (List Json)
  | [] => .ok []
  | m :: rest => do
      let mh ← jsProp m "match_hometeam_id"
      let ma ← jsProp m "match_awayteam_id"
      let tail ← h2hFilterAux hsId asId rest
      if (mh == hsId && ma == asId) || (mh == asId && ma == hsId) then
        return m :: tail
      else return tail

/-- `h2hResponse.filter(...).slice(0, 5)`; a `TypeError` if the fetched value
is not an array. -/
def h2hFilter (resp : Json) (hsId asId : Option Json) : Except String (List Json) :=
  match resp with
  | .arr xs => (h2hFilterAux hsId asId xs).map (fun l => l.take 5)
  | _ => .error "TypeError: filter is not a function"

/-- One line of the head-to-head block:
`  - ${home} ${homeScore} - ${awayScore} ${away}`. -/
def h2hLineOf (m : Json) : Except String String := do
  let hn ← jsProp m "match_hometeam_name"
  let hsc ← jsProp m "match_hometeam_score"
  let asc ← jsProp m "match_awayteam_score"
  let an ← jsProp m "match_awayteam_name"
  return "  - " ++ jsToStringOpt hn ++ " " ++ jsToStringOpt hsc ++ " - " ++
    jsToStringOpt asc ++ " " ++ jsToStringOpt an

/-- Literal chunk 0 of the server.js analyze prompt template. -/
def pv1c0 : String :=
  "\n            Analyze the following football match and provide a betting recommendation.\n            \n            Match Details:\n            - Home Team: "

/-- Literal chunk 1 of the server.js analyze prompt template. -/
def pv1c1 : String :=
  "\n            - Away Team: "

/-- Literal chunk 2 of the server.js analyze prompt template. -/
def pv1c2 : String :=
  "\n            - Date: "

/-- Literal chunk 3 of the server.js analyze prompt template. -/
def pv1c3 : String :=
  "\n            \n            Recent Head-to-Head (last 5 matches):\n            "

/-- Literal chunk 4 of the server.js analyze prompt template. -/
def pv1c4 : String :=
  "\n            \n            Home Team Statistics:\n            - League Position: "

/-- Literal chunk 5 of the server.js analyze prompt template. -/
def pv1c5 : String :=
  "\n            - Overall Points: "

/-- Literal chunk 6 of the server.js analyze prompt template. -/
def pv1c6 : String :=
  "\n            - Goals For: "

/-- Literal chunk 7 of the server.js analyze prompt template. -/
def pv1c7 : String :=
  "\n            - Goals Against: "

/-- Literal chunk 8 of the server.js analyze prompt template. -/
def pv1c8 : String :=
  "\n            \n            Away Team Statistics:\n            - League Position: "

/-- Literal chunk 9 of the server.js analyze prompt template. -/
def pv1c9 : String :=
  "\n            - Overall Points: "

/-- Literal chunk 10 of the server.js analyze prompt template. -/
def pv1c10 : String :=
  "\n            - Goals For: "

/-- Literal chunk 11 of the server.js analyze prompt template. -/
def pv1c11 : String :=
  "\n            - Goals Against: "

/-- Literal chunk 12 of the server.js analyze prompt template. -/
def pv1c12 : String :=
  "\n            \n            Based on this data, provide a structured JSON response with a predicted outcome (e.g., \"Home Win\", \"Away Win\", \"Draw\"), a recommended bet (e.g., \"Moneyline - Home Team\", \"Over 2.5 Goals\"), and a confidence score (from 0 to 100).\n        "

/-- The analysis prompt template of server.js's `POST /api/analyze`, as a
function of its interpolated values. -/
def promptV1 (hn an dt h2hBlock pos pts gf ga pos2 pts2 gf2 ga2 : String) : String :=
  pv1c0 ++ hn ++ pv1c1 ++ an ++ pv1c2 ++ dt ++ pv1c3 ++ h2hBlock ++ pv1c4 ++ pos ++ pv1c5 ++ pts ++ pv1c6 ++ gf ++ pv1c7 ++ ga ++ pv1c8 ++ pos2 ++ pv1c9 ++ pts2 ++ pv1c10 ++ gf2 ++ pv1c11 ++ ga2 ++ pv1c12

/-- Build the prompt from the fetched fixture, the two standings entries and
the filtered head-to-head list (property reads may throw). -/
def buildPromptV1 (fixture hs as' : Json) (h2hData : List Json) :
    Except String String := do
  let hn ← jsProp fixture "match_hometeam_name"
  let an ← jsProp fixture "match_awayteam_name"
  let dt ← jsProp fixture "match_date"
  let lines ← h2hData.mapM h2hLineOf
  let h2hBlock :=
    if h2hData.length > 0 then String.intercalate "\n" lines
    else "  - No recent head-to-head data available."
  let pos ← jsProp hs "overall_league_position"
  let pts ← jsProp hs "overall_league_PTS"
  let gf ← jsProp hs "overall_league_GF"
  let ga ← jsProp hs "overall_league_GA"
  let pos2 ← jsProp as' "overall_league_position"
  let pts2 ← jsProp as' "overall_league_PTS"
  let gf2 ← jsProp as' "overall_league_GF"
  let ga2 ← jsProp as' "overall_league_GA"
  return promptV1 (jsToStringOpt hn) (jsToStringOpt an) (jsToStringOpt dt) h2hBlock
    (jsToStringOpt pos) (jsToStringOpt pts) (jsToStringOpt gf) (jsToStringOpt ga)
    (jsToStringOpt pos2) (jsToStringOpt pts2) (jsToStringOpt gf2) (jsToStringOpt ga2)

/-- Evaluate the Gemini response-structure guard
`aiResult.candidates && aiResult.candidates.length > 0 && ...` and, when it
holds, return `candidates[0].content.parts[0].text`. -/
def geminiCondAndText (aiResult : Json) : Except String (Bool × Option Json) := do
  let cands ← jsProp aiResult "candidates"
  if !truthyOpt cands then return (false, none) else
  let len ← jsPropO cands "length"
  if !numGtZero len then return (false, none) else
  let c0 ← jsIndexO cands 0
  let content ← jsPropO c0 "content"
  if !truthyOpt content then return (false, none) else
  let parts ← jsPropO content "parts"
  if !truthyOpt parts then return (false, none) else
  let plen ← jsPropO parts "length"
  if !numGtZero plen then return (false, none) else
  let p0 ← jsIndexO parts 0
  let text ← jsPropO p0 "text"
  return (true, text)

/-- Extract and `JSON.parse` the model's JSON text from the Gemini response
body (server.js variants): on a malformed structure an
`Invalid response structure` error is thrown; a parse failure is a
`SyntaxError`. `JSON.parse` coerces a non-string argument to a string. -/
def extractAnalysis (aiResult : Json) (parse : String → Option Json) :
    Except String Json := do
  let (cond, text) ← geminiCondAndText aiResult
  if cond then
    match parse (jsToStringOpt text) with
    | some j => return j
    | none => throw "SyntaxError: Unexpected token in JSON"
  else throw "Invalid response structure from Gemini API."

/-- The `try` body of server.js's `POST /api/analyze` (first variant): a
thrown error escapes as `.error` together with the outbound calls already
issued; plain `return res.status(...)` responses are `.ok`. `env` answers each
upstream fetch with the response's `ok` flag and decoded body; `llm` answers
the Gemini call, keyed by the prompt; `parse` models `JSON.parse`. -/
def analyzeV1core (body : BodyV1) (env : FbParams → Bool × Json)
    (llm : String → Bool × Json) (parse : String → Option Json) :
    List Ev × Except String HttpResp :=
  if !truthyOpt body.fixtureId || !truthyOpt body.leagueId then
    ([], .ok ⟨400, errObj "Missing required parameters for analysis."⟩)
  else
    let p1 : FbParams :=
      { action := "get_events", match_id := some (jsToStringOpt body.fixtureId) }
    let (ok1, d1) := env p1
    match fetchFootballData ok1 d1 with
    | .error e => ([.fetchFootball p1], .error e)
    | .ok fixtureResponse =>
      let stage1 : Except String (Option Json) := do
        let len ← jsProp fixtureResponse "length"
        if numGtZero len then
          let f0 ← jsIndex fixtureResponse 0
          return f0
        else return some .null
      match stage1 with
      | .error e => ([.fetchFootball p1], .error e)
      | .ok fixtureO =>
        if !truthyOpt fixtureO then
          ([.fetchFootball p1], .ok ⟨404, errObj "Fixture not found."⟩)
        else
          let fixture := fixtureO.getD .null
          let p2 : FbParams :=
            { action := "get_standings", league_id := some (jsToStringOpt body.leagueId) }
          let (ok2, d2) := env p2
          match fetchFootballData ok2 d2 with
          | .error e => ([.fetchFootball p1, .fetchFootball p2], .error e)
          | .ok standings =>
            let stage2 : Except String (Option Json × Option Json) := do
              let hid ← jsProp fixture "match_hometeam_id"
              let hs ← jsFindByProp standings "team_id" hid
              let aid ← jsProp fixture "match_awayteam_id"
              let as' ← jsFindByProp standings "team_id" aid
              return (hs, as')
            match stage2 with
            | .error e => ([.fetchFootball p1, .fetchFootball p2], .error e)
            | .ok (hsO, asO) =>
              if !truthyOpt hsO || !truthyOpt asO then
                ([.fetchFootball p1, .fetchFootball p2],
                  .ok ⟨404, errObj "Could not retrieve team standings for analysis."⟩)
              else
                let hs := hsO.getD .null
                let as' := asO.getD .null
                let p3 : FbParams :=
                  { action := "get_events", fromD := some (.lit "2023-01-01"),
                    toD := some .today, league_id := some (jsToStringOpt body.leagueId) }
                let (ok3, d3) := env p3
                match fetchFootballData ok3 d3 with
                | .error e =>
                    ([.fetchFootball p1, .fetchFootball p2, .fetchFootball p3], .error e)
                | .ok h2hResponse =>
                  let stage3 : Except String String := do
                    let hid ← jsProp hs "team_id"
                    let aid ← jsProp as' "team_id"
                    let h2hData ← h2hFilter h2hResponse hid aid
                    buildPromptV1 fixture hs as' h2hData
                  match stage3 with
                  | .error e =>
                      ([.fetchFootball p1, .fetchFootball p2, .fetchFootball p3], .error e)
                  | .ok prompt =>
                    let (okA, aiBody) := llm prompt
                    let trace :=
                      [.fetchFootball p1, .fetchFootball p2, .fetchFootball p3, Ev.llmCall prompt]
                    if !okA then
                      (trace, .error "AI API call failed")
                    else
                      match extractAnalysis aiBody parse with
                      | .ok analysis => (trace, .ok ⟨200, analysis⟩)
                      | .error e => (trace, .error e)

/-- server.js's `POST /api/analyze` (first variant): the `try` body wrapped in
the `catch`, which logs and answers 500 with the error message. -/
def analyzeV1 (body : BodyV1) (env : FbParams → Bool × Json)
    (llm : String → Bool × Json) (parse : String → Option Json) :
    List Ev × HttpResp :=
  match analyzeV1core body env llm parse with
  | (tr, .ok resp) => (tr, resp)
  | (tr, .error e) => (tr, ⟨500, errObj e⟩)

/-!
## Prompt templates of the other variants

The literal text of each template is transcribed from the source; the
interpolation points split it into chunks. -/

/-- Literal chunk of a prompt template, transcribed from the source. -/
def prompt000chunk0 : String :=
  "\n        Act as a professional football match analyst and sports betting expert. Your task is to analyze and predict the outcome of an upcoming football fixture, with a specific focus on providing a precise and actionable betting recommendation. To do this, you must follow these steps:\n\n        1.  **Identify the Teams and Match Details:**\n            * Home Team: "

/-- Literal chunk of a prompt template, transcribed from the source. -/
def prompt000chunk1 : String :=
  "\n            * Away Team: "

/-- Literal chunk of a prompt template, transcribed from the source. -/
def prompt000chunk2 : String :=
  "\n            * Assume a future match date, a neutral venue, and that this is a league fixture.\n\n        2.  **Gather and Analyze Key Variables for Both Teams:**\n            * **Performance Metrics:**\n                * Recent Form (last 5 matches): Generate plausible form based on team reputation and current standings. Describe this using a W-D-L (Win-Draw-Loss) format.\n                * Home and Away Records: Generate plausible records (e.g., \"3 wins, 1 draw, 1 loss\").\n                * Head-to-head record: Generate a plausible head-to-head record. Specify the results of the last 5 encounters.\n                * Key offensive and defensive stats: Generate plausible stats such as goals scored per game, goals conceded per game, clean sheets, and average possession.\n            * **Player Information:**\n                * Significant injuries or suspensions: Generate plausible key player absences and describe their likely impact on the team's performance.\n                * Key players in form: Identify plausible in-form players and their contributions (e.g., goals, assists).\n            * **Contextual Factors:**\n                * Tactical style: Describe the plausible tactical style of each team (e.g., \"Possession-based, attacking football\" or \"Defensive, counter-attacking\").\n                * Motivation: Describe the plausible motivation level for each team (e.g., \"Fighting for a top 4 spot\" or \"Safe in mid-table with little to play for\").\n                * Rest period: Assume a standard rest period (e.g., 7 days).\n            * **Betting Odds from Top 10 Bookmakers:**\n                * Historical Odds (last 5 matches): Describe plausible win, draw, loss odds for each match, noting any significant discrepancies or value bets.\n                * Pre-match Odds: Generate plausible odds for win, draw, and loss for the upcoming match.\n\n        3.  **Synthesize the Data and Formulate a Precise Betting Recommendation:**\n            * **Comparison:** Compare the strengths and weaknesses of each team, focusing on statistical advantages (e.g., \"Team A's high scoring rate versus Team B's poor defensive record\").\n            * **Tactical Advantage:** Identify which team has the tactical advantage and explain why based on the styles of play.\n            * **Value Assessment:** Identify where the most betting value lies. Is the favorite over-priced or is there a good chance of an upset?\n            * **Betting Market Analysis:** Go beyond just the final outcome. Consider other markets such as:\n                * Over/Under Goals (e.g., Over 2.5 goals)\n                * Both Teams to Score (BTTS)\n                * Correct Score\n                * Handicap Betting\n            * **Final Prediction and Confidence:** Provide a final prediction, a most likely scoreline, and a confidence level (e.g., High, Medium, Low) for the core outcome.\n\n        4.  **Structure the Final Output:**\n            * Provide your response in a single JSON object. The 'summary' field should be a concise overview of your betting thesis. The 'conclusion' should summarize the recommended bet and its rationale.\n    "

/-- Literal chunk of a prompt template, transcribed from the source. -/
def prompt002chunk0 : String :=
  "\n        Act as a professional forex market analyst with expertise in quantitative trading and AI-driven predictive analytics.\n\n        Analyze the following real-time forex asset data. Provide a detailed, easy-to-understand analysis that includes a price forecast, potential trend reversal alerts, and a sentiment score (bullish, bearish, or neutral). Justify your analysis with specific points based on the provided data.\n\n        The data provided is a JSON object representing the latest tick for the asset: "

/-- Literal chunk of a prompt template, transcribed from the source. -/
def prompt002chunk1 : String :=
  "\n\n        Return the analysis in a structured JSON format with the following keys: \"forecast\" (a summary of the price forecast), \"reversalAlerts\" (a boolean), \"sentiment\" (string: \"Bullish\", \"Bearish\", or \"Neutral\"), and \"analysisDetails\" (a detailed, markdown-formatted explanation). Do not wrap the JSON in markdown code blocks.\n    "

/-- Literal chunk of a prompt template, transcribed from the source. -/
def prompt003chunk0 : String :=
  "\n            You are an expert forex technical analyst.\n            Analyze the provided OHLC data for the asset **"

/-- Literal chunk of a prompt template, transcribed from the source. -/
def prompt003chunk1 : String :=
  "**.\n            The current market price is **"

/-- Literal chunk of a prompt template, transcribed from the source. -/
def prompt003chunk2 : String :=
  "**.\n            \n            **Technical Analysis Goal:**\n            Perform a multi-timeframe analysis (looking for support/resistance, momentum, and volatility) to calculate three conservative take-profit levels (TP1, TP2, TP3).\n            \n            **Rules for Take-Profits:**\n            1. **TP1 (Closest):** A short-term target (e.g., based on recent short-term S/R or 1m/5m/15m volatility).\n            2. **TP2 (Medium):** A medium-term target (e.g., based on 1h/4h S/R or Fibonacci extension).\n            3. **TP3 (Farthest):** A long-term, high-probability target (e.g., based on 1d/1w S/R or major swing points).\n            4. The TPs can be either above or below the current price, indicating a potential long or short trade.\n            5. **Crucially, the output must be ONLY a single JSON object** that conforms strictly to the following structure:\n            \n            ```json\n            \x7b\n              \"analysis_summary\": \"A brief summary of your technical analysis, e.g., 'Strong bullish momentum across all timeframes targeting a major weekly resistance.'\",\n              \"tp_levels\": \x7b\n                \"TP1\": 0.0000,\n                \"TP2\": 0.0000,\n                \"TP3\": 0.0000\n              \x7d\n            \x7d\n            ```\n\n            **Input OHLC Data (JSON Array):**\n            "

/-- Literal chunk of a prompt template, transcribed from the source. -/
def prompt003chunk3 : String :=
  "\n        "

/-- Literal chunk of a prompt template, transcribed from the source. -/
def analysisPrompt006 : String :=
  "\nYou are an expert financial market analyst with extensive experience in technical analysis and price action trading. Your task is to analyze the provided candlestick data for a financial asset and provide a trading recommendation.\n\nAnalyze the market based on the following:\n- **Trend Identification:** Determine the current market trend (bullish, bearish, or sideways) across multiple time horizons.\n- **Key Levels:** Identify significant support and resistance levels.\n- **Momentum:** Assess the strength and direction of the price movement.\n- **Price Action Patterns:** Look for common candlestick and chart patterns that indicate potential market reversals or continuations.\n\nBased on your analysis, provide a concrete trading recommendation. This recommendation must be a single, structured JSON object containing a potential entry point, a take-profit level, and a stop-loss level. Your output should contain only this JSON object and nothing else\n"

/-- Literal chunk of a prompt template, transcribed from the source. -/
def prompt008chunk0 : String :=
  "\n        You are a seasoned financial analyst specializing in Inner Circle Trader (ICT) concepts. Analyze the provided candlestick market data for an asset from the Deriv platform, with a timeframe of "

/-- Literal chunk of a prompt template, transcribed from the source. -/
def prompt008chunk1 : String :=
  ".\n        \n        Using ICT methodologies, identify and explain the following elements:\n        - **Buyside and Sellside Liquidity:** Identify key areas of liquidity that could be targeted by \"smart money\".\n        - **Fair Value Gaps (FVG):** Pinpoint any unmitigated fair value gaps and explain their significance.\n        - **Order Blocks:** Identify valid order blocks and their role in the current price action.\n        \n        Based on the confluence of these factors, provide a concise summary of the market's current state and a specific trade recommendation.\n        \n        Provide your analysis in the following JSON format. If no clear instance of an ICT element is found, you can state so in the corresponding field.\n        \n        ---\n        Market Data:\n        "

/-- Literal chunk of a prompt template, transcribed from the source. -/
def prompt008chunk2 : String :=
  "\n    "

/-!
## part_000: `POST /analyze` (no upstream data fetcher) -/

/-- The request body of part_000's `POST /analyze`. -/
structure Body000 where
  homeTeam : Option Json := none
  awayTeam : Option Json := none

/-- part_000's prompt: the template with the two team names interpolated. -/
def prompt000 (home away : String) : String :=
  prompt000chunk0 ++ home ++ prompt000chunk1 ++ away ++ prompt000chunk2

/-- part_000's `POST /analyze`: validate the body, build the prompt from the
body alone, call the Gemini endpoint once, and relay the parsed JSON text of
the first candidate; a malformed structure answers 500
`Unexpected API response structure.`, any thrown error answers 500
`Failed to get prediction from the API.`. -/
def analyze000 (body : Body000) (llm : String → Json)
    (parse : String → Option Json) : List Ev × HttpResp :=
  if !truthyOpt body.homeTeam || !truthyOpt body.awayTeam then
    ([], ⟨400, errObj "Please provide both home and away team names."⟩)
  else
    let prompt := prompt000 (jsToStringOpt body.homeTeam) (jsToStringOpt body.awayTeam)
    let aiResult := llm prompt
    let tr := [Ev.llmCall prompt]
    match geminiCondAndText aiResult with
    | .error _ => (tr, ⟨500, errObj "Failed to get prediction from the API."⟩)
    | .ok (cond, text) =>
      if cond then
        match parse (jsToStringOpt text) with
        | some j => (tr, ⟨200, j⟩)
        | none => (tr, ⟨500, errObj "Failed to get prediction from the API."⟩)
      else (tr, ⟨500, errObj "Unexpected API response structure."⟩)

/-!
## part_002: asset cache and `POST /api/analyze-asset` -/

/-- `active_symbols.filter(s => s.market === 'forex' && s.submarket ===
'major_pairs')` (short-circuit evaluation; a `null` element throws). -/
def filterForexMajors : List Json → Except String (List Json)
  | [] => .ok []
  | s :: rest => do
      let mkt ← jsProp s "market"
      let keep ←
        if mkt == some (.str "forex") then do
          let sub ← jsProp s "submarket"
          pure (sub == some (.str "major_pairs"))
        else pure false
      let tail ← filterForexMajors rest
      if keep then return s :: tail else return tail

/-- `.map(s => ({ symbol: s.symbol, displayName: s.display_name }))`. -/
def assetEntry002 (s : Json) : Except String Json := do
  let sym ← jsProp s "symbol"
  let dn ← jsProp s "display_name"
  return .obj (mkEntry "symbol" sym ++ mkEntry "displayName" dn)

/-- part_002's `fetchAssets`: recompute the module-level `availableAssets`
cache from an `active_symbols` response. On an API error or a thrown error the
cache is left unchanged (`catch` only logs). -/
def fetchAssets002 (response : Json) (prev : List Json) : List Json :=
  let r : Except String (List Json) := do
    let errO ← jsProp response "error"
    if truthyOpt errO then throw "api error" else
    let syms ← jsProp response "active_symbols"
    match syms with
    | some (.arr xs) => do
        let kept ← filterForexMajors xs
        kept.mapM assetEntry002
    | some _ => throw "TypeError: filter is not a function"
    | none => throw "TypeError: Cannot read properties of undefined"
  match r with
  | .ok l => l
  | .error _ => prev

/-- Whitespace test of JavaScript `trim` (the whitespace classes that occur in
model output). -/
def isWsChar (c : Char) : Bool := c == ' ' || c == '\n' || c == '\t' || c == '\r'

/-- JavaScript `String.prototype.trim`. -/
def trimStr (s : String) : String :=
  String.mk (((s.data.dropWhile isWsChar).reverse.dropWhile isWsChar).reverse)

/-- part_002's prompt: the template around `JSON.stringify(assetData)`. -/
def prompt002 (assetData : Json) : String :=
  prompt002chunk0 ++ jsonStringify assetData ++ prompt002chunk1

/-- part_002's markdown-fence cleaning:
`text.replace(/```json/g, '').replace(/```/g, '').trim()`. -/
def cleanText002 (text : String) : String :=
  trimStr (replaceAllStr (replaceAllStr text "```json" "") "```" "")

/-- part_002's `POST /api/analyze-asset`: validate, embed the stringified
asset data in the prompt, call the model once (`llm` yields the response text
or a thrown error), strip markdown fences, parse, and relay the parsed JSON;
every caught error answers 500. -/
def analyzeAsset002 (assetData : Option Json) (llm : String → Except String String)
    (parse : String → Option Json) : List Ev × HttpResp :=
  if !truthyOpt assetData then ([], ⟨400, errObj "Asset data is required."⟩)
  else
    let prompt := prompt002 (assetData.getD .null)
    let tr := [Ev.llmCall prompt]
    match llm prompt with
    | .error _ => (tr, ⟨500, errObj "Failed to get analysis from AI model."⟩)
    | .ok text =>
      match parse (cleanText002 text) with
      | some j => (tr, ⟨200, j⟩)
      | none => (tr, ⟨500, errObj "Failed to get analysis from AI model."⟩)

/-!
## part_003: `POST /analyze` (Deriv OHLC, multi-timeframe) -/

/-- JavaScript `toUpperCase` on the character list (ASCII suffices for the
asset names handled). -/
def toUpperStr (s : String) : String := String.mk (s.data.map Char.toUpper)

/-- part_003's `TIME_FRAME_MAP` object: timeframe label to granularity in
seconds; an unknown label reads as `undefined`. -/
def TIME_FRAME_MAP : String → Option Nat
  | "1m" => some 60
  | "5m" => some 300
  | "15m" => some 900
  | "30m" => some 1800
  | "1h" => some 3600
  | "4h" => some 14400
  | "1d" => some 86400
  | "1w" => some 604800
  | _ => none

/-- An outbound call of part_003's handler. -/
inductive Ev3 where
  | priceFetch (symbol : String)
  | ohlcFetch (symbol : String) (granularity : Option Nat)
  | llmCall3 (prompt : String)
deriving Repr, DecidableEq

/-- The request body of part_003's `POST /analyze`. -/
structure Body3 where
  asset : Option Json := none
  timeframes : Option Json := none

/-- One entry of `allOhlcData`: the `.then`/`.catch` wrapper around
`fetchOHLCData` records either the candles or an empty list plus the error. -/
structure TfData where
  timeframe : Json
  data : List Json
  err : Option String
deriving Repr, DecidableEq

/-- `timeframes.length === 0` (the third disjunct of the body guard; the value
is already known to be truthy, hence not `null`). -/
def lengthPropIsZero (j : Json) : Bool :=
  match jsProp j "length" with
  | .ok (some (.num 0)) => true
  | _ => false

/-- The per-timeframe fetch with its `.catch`: a rejected fetch becomes
`{ timeframe, data: [], error }` instead of failing the whole batch. -/
def fetchTf (ohlc : String → Option Nat → Except String (List Json))
    (symbol : String) (tf : Json) : TfData :=
  match ohlc symbol (TIME_FRAME_MAP (jsToString tf)) with
  | .ok d => ⟨tf, d, none⟩
  | .error e => ⟨tf, [], some e⟩

/-- part_003's prompt: the template around the asset, the current price and
the stringified OHLC data. -/
def prompt003 (asset price dataJson : String) : String :=
  prompt003chunk0 ++ asset ++ prompt003chunk1 ++ price ++ prompt003chunk2 ++
    dataJson ++ prompt003chunk3

/-- part_003's `POST /analyze`: validate the body, derive the Deriv symbol,
fetch the current price, fetch OHLC candles for every requested timeframe
(each with its own `.catch`), keep the timeframes that yielded candles, send
one prompt to the model, and relay
`{ asset, timeframes, currentPrice, analysis, timestamp }`. `price` and `ohlc`
answer the Deriv WebSocket requests (already mapped to candle objects, as
`fetchOHLCData` resolves them); `llmText` yields `response.text`; `nowIso`
is `new Date().toISOString()`. -/
def analyze003 (body : Body3) (price : String → Except String Json)
    (ohlc : String → Option Nat → Except String (List Json))
    (llmText : String → Except String String) (parse : String → Option Json)
    (nowIso : String) : List Ev3 × HttpResp :=
  if !truthyOpt body.asset || !truthyOpt body.timeframes ||
      lengthPropIsZero ((body.timeframes).getD .null) then
    ([], ⟨400, errObj "Missing asset or timeframe selection."⟩)
  else
    let derivSymbol := "frx" ++ toUpperStr (replaceFirst (jsToStringOpt body.asset) "/" "")
    match price derivSymbol with
    | .error e =>
        ([.priceFetch derivSymbol], ⟨500, errObj ("Failed to complete analysis: " ++ e)⟩)
    | .ok currentPrice =>
      match (body.timeframes).getD .null with
      | .arr tfs =>
        let allOhlcData := tfs.map (fetchTf ohlc derivSymbol)
        let fetchEvs := tfs.map (fun tf => Ev3.ohlcFetch derivSymbol (TIME_FRAME_MAP (jsToString tf)))
        let trFetch := Ev3.priceFetch derivSymbol :: fetchEvs
        let dataForGemini := allOhlcData.filter (fun it => it.data.length > 0)
        if dataForGemini.length = 0 then
          (trFetch, ⟨500, errObj "Could not fetch any market data for analysis. Check if the symbol is correct or if the data exists for the selected timeframes (e.g., try 1h or 1d)."⟩)
        else
          let dataJson : Json :=
            .arr (dataForGemini.map (fun it => .obj [("timeframe", it.timeframe), ("candles", .arr it.data)]))
          let prompt := prompt003 (jsToStringOpt body.asset) (jsToString currentPrice)
            (jsonStringify dataJson)
          let tr := trFetch ++ [Ev3.llmCall3 prompt]
          match llmText prompt with
          | .error e => (tr, ⟨500, errObj ("Failed to complete analysis: " ++ e)⟩)
          | .ok text =>
            match parse (trimStr text) with
            | none =>
                (tr, ⟨500, errObj "Failed to complete analysis: Unexpected token in JSON"⟩)
            | some analysis =>
              (tr, ⟨200, .obj [("asset", (body.asset).getD .null),
                ("timeframes", .arr (dataForGemini.map (fun it => it.timeframe))),
                ("currentPrice", currentPrice), ("analysis", analysis),
                ("timestamp", .str nowIso)]⟩)
      | _ =>
          ([.priceFetch derivSymbol],
            ⟨500, errObj "Failed to complete analysis: timeframes.map is not a function"⟩)

/-!
## part_006: indicator realignment, module state, and `POST /api/analyze` -/

/-- JavaScript `parseInt` restricted to an unsigned decimal prefix; `none`
models `NaN`. -/
def parseIntJs (s : String) : Option Nat :=
  let ds := s.data.takeWhile (fun c => c.isDigit)
  if ds.isEmpty then none
  else some (ds.foldl (fun acc c => acc * 10 + (c.toNat - '0'.toNat)) 0)

/-- part_006's `getTimeframeInSeconds`: last character (lower-cased) selects
the unit, the prefix is `parseInt`ed; an unknown unit defaults to 60 seconds.
`none` models a `NaN` result (non-numeric prefix with a known unit). -/
def getTimeframeInSeconds (timeframe : String) : Option Nat :=
  let unit := (timeframe.data.getLast?).map Char.toLower
  let value := parseIntJs (String.mk timeframe.data.dropLast)
  match unit with
  | some 'm' => value.map (fun v => v * 60)
  | some 'h' => value.map (fun v => v * 3600)
  | some 'd' => value.map (fun v => v * 24 * 3600)
  | _ => some 60

/-- The enumerable own properties of a value, as object spread `{...v}` sees
them (objects: their members; arrays and strings: indexed elements; other
scalars: none). -/
def jsSpread : Json → List (String × Json)
  | .obj ms => ms
  | .arr xs => xs.enum.map (fun p => (toString p.1, p.2))
  | .str s => s.data.enum.map (fun p => (toString p.1, .str (String.singleton p.2)))
  | _ => []

/-- Write a property into a member list: replaced in place when present,
appended otherwise. A value of `undefined` is modelled as the absence of the
property (equivalent under JSON serialisation, which drops it). -/
def setOrDrop (ms : List (String × Json)) (k : String) : Option Json → List (String × Json)
  | none => ms.filter (fun p => p.1 ≠ k)
  | some v =>
      if (ms.find? (fun p => p.1 == k)).isSome then
        ms.map (fun p => if p.1 == k then (k, v) else p)
      else ms ++ [(k, v)]

/-- `{ ...candle, rsi, macd, bollingerBands, ichimokuCloud }`. -/
def attachInd (c : Json) (r m b ich : Option Json) : Json :=
  .obj (setOrDrop (setOrDrop (setOrDrop (setOrDrop (jsSpread c) "rsi" r)
    "macd" m) "bollingerBands" b) "ichimokuCloud" ich)

/-- The third-party `technicalindicators` library functions that
`calculateAllIndicators` calls, as oracles: each maps the input price
array(s) to the library's output array. -/
structure IndicatorLib where
  rsiCalc : List (Option Json) → List Json
  macdCalc : List (Option Json) → List Json
  bbCalc : List (Option Json) → List Json
  ichCalc : List (Option Json) → List (Option Json) → List Json

/-- `candles.map(c => c.open)` and friends: a column of the candle list. -/
def candleField (candles : List Json) (k : String) : Except String (List (Option Json)) :=
  candles.mapM (fun c => jsProp c k)

/-- part_006's `calculateAllIndicators`: feed the close (and high/low)
columns to the library and reattach each output array shifted by its warm-up
offset — `rsi[i - 13]`, `macd[i - 25]`, `bollingerBands[i - 19]`,
`ichimokuCloud[i - 51]` — onto the candle at index `i` (a negative index
reads `undefined`). -/
def calculateAllIndicators (lib : IndicatorLib) (candles : List Json) :
    Except String (List Json) := do
  let _openA ← candleField candles "open"
  let highA ← candleField candles "high"
  let lowA ← candleField candles "low"
  let closeA ← candleField candles "close"
  let _volA ← candleField candles "volume"
  let rsi := lib.rsiCalc closeA
  let macd := lib.macdCalc closeA
  let bb := lib.bbCalc closeA
  let ich := lib.ichCalc highA lowA
  return candles.enum.map (fun p =>
    attachInd p.2 (idxGet rsi ((p.1 : Int) - 13)) (idxGet macd ((p.1 : Int) - 25))
      (idxGet bb ((p.1 : Int) - 19)) (idxGet ich ((p.1 : Int) - 51)))

/-- part_006's module-level mutable state, shared by all requests. -/
structure State6 where
  liveCandles : List Json := []
  currentAsset : String := ""
  currentInterval : Option Nat := some 60
deriving Repr, DecidableEq

/-- `connectToDeriv`: reset the candle buffer and remember the requested
asset and interval in the module state. -/
def connectToDeriv (asset : String) (interval : Option Nat) (_s : State6) : State6 :=
  { liveCandles := [], currentAsset := asset, currentInterval := interval }

/-- The `ticks_history` reply observed during the five-second wait: the
`history` message replaces the candle buffer. -/
def receiveHistory (arrived : List Json) (s : State6) : State6 :=
  { s with liveCandles := arrived }

/-- The request body of part_006's `POST /api/analyze`. -/
structure Body6 where
  asset : Option Json := none
  timeframe : Option Json := none

/-- An outbound call of part_006's handler. -/
inductive Ev6 where
  | derivConnect (asset : String) (interval : Option Nat)
  | llmCall6 (prompt : String)
deriving Repr, DecidableEq

/-- The truthiness chain
`!aiResult.candidates || !candidates[0] || !...content || !...parts ||
!...parts[0] || !...parts[0].text` (every base is truthy-checked before the
deeper read, so the chain never throws); returns the `text` value when the
structure is valid. -/
def deepseekExtract (aiResult : Json) : Option Json :=
  let step (b : Option Json) (k : String) : Option Json :=
    match b with
    | some x => (match jsProp x k with | .ok v => v | .error _ => none)
    | none => none
  let idx (b : Option Json) (i : Nat) : Option Json :=
    match b with
    | some x => (match jsIndex x i with | .ok v => v | .error _ => none)
    | none => none
  let cands := step (some aiResult) "candidates"
  if !truthyOpt cands then none else
  let c0 := idx cands 0
  if !truthyOpt c0 then none else
  let content := step c0 "content"
  if !truthyOpt content then none else
  let parts := step content "parts"
  if !truthyOpt parts then none else
  let p0 := idx parts 0
  if !truthyOpt p0 then none else
  let text := step p0 "text"
  if !truthyOpt text then none else text

/-- Index of the first occurrence of a character. -/
def indexOfChar (s : String) (c : Char) : Option Nat :=
  s.data.indexOf? c

/-- Index of the last occurrence of a character. -/
def lastIndexOfChar (s : String) (c : Char) : Option Nat :=
  match (s.data.reverse).indexOf? c with
  | none => none
  | some k => some (s.data.length - 1 - k)

/-- JavaScript `s.substring(a, b)` (arguments swapped when `a > b`). -/
def jsSubstring (s : String) (a b : Nat) : String :=
  let lo := min a b
  let hi := max a b
  String.mk ((s.data.drop lo).take (hi - lo))

/-- part_006's `POST /api/analyze`: validate, reconnect the module-level
WebSocket (mutating `liveCandles`/`currentAsset`/`currentInterval`), wait for
candles, require at least 50, attach the indicators, send the candle JSON to
the chat-completion endpoint, and relay the JSON object found between the
first `{` and the last `}` of the answer text. The mutated module state is
returned alongside the trace and response: it persists after the request. -/
def analyze006 (s : State6) (body : Body6) (arrived : List Json)
    (lib : IndicatorLib) (llm : String → Bool × Json)
    (parse : String → Option Json) : State6 × List Ev6 × HttpResp :=
  if !truthyOpt body.asset || !truthyOpt body.timeframe then
    (s, [], ⟨400, errObj "Asset and timeframe are required."⟩)
  else
    let assetStr := jsToStringOpt body.asset
    let interval := getTimeframeInSeconds (jsToStringOpt body.timeframe)
    let s1 := receiveHistory arrived (connectToDeriv assetStr interval s)
    let tr := [Ev6.derivConnect assetStr interval]
    if s1.liveCandles.length < 50 then
      (s1, tr, ⟨500, errObj "Not enough historical data to perform a proper analysis. Please try again or with a different asset/timeframe."⟩)
    else
      match calculateAllIndicators lib s1.liveCandles with
      | .error e => (s1, tr, ⟨500, errObj e⟩)
      | .ok cwi =>
        let userContent := "Here is the candle data with technical indicators for " ++
          assetStr ++ " on a " ++ jsToStringOpt body.timeframe ++ " timeframe:\n\n" ++
          jsonStringify (.arr cwi)
        let tr2 := tr ++ [Ev6.llmCall6 userContent]
        let (okA, aiResult) := llm userContent
        if !okA then
          (s1, tr2, ⟨500, errObj "AI API responded with status"⟩)
        else
          match deepseekExtract aiResult with
          | none => (s1, tr2, ⟨500, errObj "Invalid response structure from Gemini API."⟩)
          | some text =>
            match text with
            | .str responseText =>
              match indexOfChar responseText '\x7b', lastIndexOfChar responseText '\x7d' with
              | some i, some j =>
                let jsonString := jsSubstring responseText i (j + 1)
                (match parse jsonString with
                 | some analysis => (s1, tr2, ⟨200, analysis⟩)
                 | none => (s1, tr2, ⟨500, errObj "Could not parse the JSON analysis from the AI response."⟩))
              | _, _ =>
                  (s1, tr2, ⟨500, errObj "Could not find a valid JSON object in the AI response."⟩)
            | _ => (s1, tr2, ⟨500, errObj "TypeError: responseText.indexOf is not a function"⟩)

/-!
## part_008: `POST /analyze` with an abortable Gemini call -/

/-- part_008's `granularityMap` (identical to `TIME_FRAME_MAP`). -/
def granularityMap8 : String → Option Nat
  | "1m" => some 60
  | "5m" => some 300
  | "15m" => some 900
  | "30m" => some 1800
  | "1h" => some 3600
  | "4h" => some 14400
  | "1d" => some 86400
  | "1w" => some 604800
  | _ => none

/-- The request body of part_008's `POST /analyze`. -/
structure Body8 where
  symbol : Option Json := none
  timeframe : Option Json := none

/-- Outcome of the Gemini fetch in `analyzeWithGemini`: it resolves with a
decoded body, or is aborted by the 15-second `AbortController` timeout, or
fails for any other reason. -/
inductive GeminiOutcome where
  | ok (body : Json)
  | abortError
  | fetchFailed
deriving Repr, DecidableEq

/-- An outbound call of part_008's handler. -/
inductive Ev8 where
  | ohlcFetch8 (symbol : String) (granularity : Nat)
  | llmCall8 (prompt : String)
deriving Repr, DecidableEq

/-- The `entry/takeProfit/stopLoss`-nulled fallback object that
`analyzeWithGemini` substitutes for a failed call. -/
def fallback8 (msg : String) : Json :=
  .obj [("analysis", .str msg), ("entry", .null), ("takeProfit", .null), ("stopLoss", .null)]

/-- One line of part_008's data prompt:
`Time: ..., Open: ..., High: ..., Low: ..., Close: ...`. -/
def tickLine8 (t : Json) : Except String String := do
  let tm ← jsProp t "time"
  let o ← jsProp t "open"
  let h ← jsProp t "high"
  let l ← jsProp t "low"
  let c ← jsProp t "close"
  return "Time: " ++ jsToStringOpt tm ++ ", Open: " ++ jsToStringOpt o ++
    ", High: " ++ jsToStringOpt h ++ ", Low: " ++ jsToStringOpt l ++
    ", Close: " ++ jsToStringOpt c

/-- Optional-chaining property read `v?.k`: `null`/`undefined` short-circuit
to `undefined`, nothing throws. -/
def optChain (j : Option Json) (k : String) : Option Json :=
  match j with
  | none => none
  | some .null => none
  | some x => (match jsProp x k with | .ok v => v | .error _ => none)

/-- Optional-chaining indexed read `v?.[i]`. -/
def optChainIdx (j : Option Json) (i : Nat) : Option Json :=
  match j with
  | none => none
  | some .null => none
  | some x => (match jsIndex x i with | .ok v => v | .error _ => none)

/-- part_008's `analyzeWithGemini`: build the data prompt (outside any
`try`, so a `TypeError` propagates), issue the abortable fetch, and convert
every failure into a fallback analysis object — a timeout, a fetch error, a
missing text part, and unparseable text all yield a normal return value, never
a thrown error. Returns the prompt sent together with the value returned. -/
def analyzeWithGemini (data : List Json) (timeframe : String)
    (outcome : GeminiOutcome) (parse : String → Option Json) :
    Except String (String × Json) := do
  let lines ← data.mapM tickLine8
  let dataPrompt := String.intercalate "\n" lines
  let userPrompt := prompt008chunk0 ++ timeframe ++ prompt008chunk1 ++ dataPrompt ++
    prompt008chunk2
  match outcome with
  | .abortError =>
      return (userPrompt, fallback8 "Analysis request timed out. Please try again.")
  | .fetchFailed =>
      return (userPrompt, fallback8 "Failed to get a response from the analysis service. Please check your API key and network connection.")
  | .ok body =>
      let c := optChain (some body) "candidates"
      let c0 := optChainIdx c 0
      let ct := optChain c0 "content"
      let pts := optChain ct "parts"
      let p0 := optChainIdx pts 0
      let jsonText := optChain p0 "text"
      if !truthyOpt jsonText then
        return (userPrompt, fallback8 "Analysis failed. No text response from Gemini API. Please try again.")
      else
        match parse (jsToStringOpt jsonText) with
        | some j => return (userPrompt, j)
        | none =>
            return (userPrompt, .obj [("analysis", jsonText.getD .null), ("entry", .null),
              ("takeProfit", .null), ("stopLoss", .null)])

/-- part_008's `POST /analyze`: validate, fetch the candles over the Deriv
WebSocket (an unknown timeframe rejects before any connection), hand them to
`analyzeWithGemini`, and relay `{ analysis }` with HTTP 200; only an error
thrown inside the handler body (OHLC rejection or data-prompt `TypeError`)
reaches the `catch`, which answers 500 `Failed to analyze the market data.`. -/
def analyze008 (body : Body8) (ohlc : String → Nat → Except String (List Json))
    (gemini : GeminiOutcome) (parse : String → Option Json) :
    List Ev8 × HttpResp :=
  if !truthyOpt body.symbol || !truthyOpt body.timeframe then
    ([], ⟨400, errObj "Asset symbol and timeframe are required."⟩)
  else
    let sym := jsToStringOpt body.symbol
    match granularityMap8 (jsToStringOpt body.timeframe) with
    | none => ([], ⟨500, errObj "Failed to analyze the market data."⟩)
    | some gr =>
      match ohlc sym gr with
      | .error _ => ([.ohlcFetch8 sym gr], ⟨500, errObj "Failed to analyze the market data."⟩)
      | .ok data =>
        match analyzeWithGemini data (jsToStringOpt body.timeframe) gemini parse with
        | .error _ =>
            ([.ohlcFetch8 sym gr], ⟨500, errObj "Failed to analyze the market data."⟩)
        | .ok (prompt, result) =>
            ([.ohlcFetch8 sym gr, .llmCall8 prompt], ⟨200, .obj [("analysis", result)]⟩)

/-!
## Route registrations

One entry per `app.get`/`app.post` call of each server variant (server.js
holds three variants; part_005 holds two; part_008's second document is a
stylesheet; parts 009-013 and public/script.js are front-end scripts, not
servers). -/

def routesServerV1 : List (String × String) :=
  [("GET", "/api/countries"), ("GET", "/api/leagues/:countryId"),
   ("GET", "/api/fixtures/:leagueId"), ("POST", "/api/analyze")]

def routesServerV2 : List (String × String) :=
  [("GET", "/api/leagues"), ("GET", "/api/teams/:leagueId/:season"),
   ("GET", "/api/fixtures/:teamId/:leagueId/:season"), ("POST", "/api/analyze")]

def routesServerV3 : List (String × String) := [("POST", "/analyze")]

def routesPart000 : List (String × String) := [("POST", "/analyze")]

def routesPart001 : List (String × String) := [("POST", "/api/analyze")]

def routesPart002 : List (String × String) :=
  [("GET", "/"), ("GET", "/api/assets"), ("POST", "/api/analyze-asset")]

def routesPart003 : List (String × String) := [("POST", "/analyze")]

def routesPart004 : List (String × String) := [("GET", "/assets"), ("POST", "/analyze")]

def routesPart005a : List (String × String) := [("POST", "/api/predict")]

def routesPart005b : List (String × String) := [("POST", "/analyze")]

def routesPart006 : List (String × String) := [("POST", "/api/analyze")]

def routesPart007 : List (String × String) := [("POST", "/analyze")]

def routesPart008 : List (String × String) := [("GET", "/assets"), ("POST", "/analyze")]

/-- The endpoint lists of all thirteen server variants. -/
def allVariantRoutes : List (List (String × String)) :=
  [routesServerV1, routesServerV2, routesServerV3, routesPart000, routesPart001,
   routesPart002, routesPart003, routesPart004, routesPart005a, routesPart005b,
   routesPart006, routesPart007, routesPart008]

/-!
## part_001: `fetchFootballData` with an internal catch -/

/-- Outcome of part_001's upstream fetch: the network call itself can reject,
or a response with its `ok` flag and decoded body arrives. -/
inductive FetchOutcome01 where
  | netError
  | resp (ok : Bool) (data : Json)
deriving Repr, DecidableEq

/-- The `try` body of part_001's `fetchFootballData` — identical to the first
variant's helper. -/
def fetchFootballData001core : FetchOutcome01 → Except String Json
  | .netError => .error "fetch rejected"
  | .resp ok data => fetchFootballData ok data

/-- part_001's `fetchFootballData`: the same body, but its `catch` converts
every thrown error into an empty-array result (`return []`) instead of
propagating it. -/
def fetchFootballData001 (o : FetchOutcome01) : Json :=
  match fetchFootballData001core o with
  | .ok d => d
  | .error _ => .arr []

/-!
## Spec-side helpers for the claims -/

/-- Is the value a JSON array? (`Array.isArray`). -/
def Json.isArr : Json → Bool
  | .arr _ => true
  | _ => false

/-- Number of LLM calls in a server.js-variant trace. -/
def llmCount (tr : List Ev) : Nat :=
  tr.countP (fun e => match e with | .llmCall _ => true | _ => false)

/-- The upstream fetches of a part_003 trace, in order (LLM calls dropped). -/
def fetchEvents3 (tr : List Ev3) : List Ev3 :=
  tr.filter (fun e => match e with | .llmCall3 _ => false | _ => true)

/-- Spec-side filter of the fixtures endpoint: an upcoming fixture is an
object whose `match_status` member is the empty string. -/
def statusEmpty (f : Json) : Bool :=
  match f with
  | .obj ms => objFind ms "match_status" == some (.str "")
  | _ => false

/-- Spec-side row shape of the fixtures endpoint, for object fixtures. -/
def rowOfObj (f : Json) : Json :=
  match f with
  | .obj ms =>
      .obj (mkEntry "id" (objFind ms "match_id") ++ mkEntry "leagueId" (objFind ms "league_id") ++
        [("name", .str (jsToStringOpt (objFind ms "match_hometeam_name") ++ " vs " ++
          jsToStringOpt (objFind ms "match_awayteam_name")))] ++
        mkEntry "homeTeamName" (objFind ms "match_hometeam_name") ++
        mkEntry "awayTeamName" (objFind ms "match_awayteam_name") ++
        mkEntry "date" (objFind ms "match_date"))
  | _ => .null

/-- The fixture object fetched by `POST /api/analyze`, with string fields. -/
def mkFixture (hn an dt hid aid : String) : Json :=
  .obj [("match_hometeam_name", .str hn), ("match_awayteam_name", .str an),
    ("match_date", .str dt), ("match_hometeam_id", .str hid),
    ("match_awayteam_id", .str aid)]

/-- A standings entry with string fields. -/
def mkStanding (tid pos pts gf ga : String) : Json :=
  .obj [("team_id", .str tid), ("overall_league_position", .str pos),
    ("overall_league_PTS", .str pts), ("overall_league_GF", .str gf),
    ("overall_league_GA", .str ga)]

/-- A head-to-head match entry with string fields. -/
def mkH2H (hid aid hn an hs as' : String) : Json :=
  .obj [("match_hometeam_id", .str hid), ("match_awayteam_id", .str aid),
    ("match_hometeam_name", .str hn), ("match_awayteam_name", .str an),
    ("match_hometeam_score", .str hs), ("match_awayteam_score", .str as')]

/-- A well-formed Gemini response body whose first candidate's first part
carries the text `t`. -/
def mkLlmBody (t : String) : Json :=
  let part : Json := .obj [("text", .str t)]
  let content : Json := .obj [("parts", .arr [part])]
  let cand : Json := .obj [("content", content)]
  .obj [("candidates", .arr [cand])]

/-- The `get_events?match_id=...` query of `POST /api/analyze`. -/
def analyzeP1 (fid : String) : FbParams :=
  { action := "get_events", match_id := some fid }

/-- The `get_standings?league_id=...` query of `POST /api/analyze`. -/
def analyzeP2 (lid : String) : FbParams :=
  { action := "get_standings", league_id := some lid }

/-- The head-to-head `get_events` query of `POST /api/analyze`: from the
literal date 2023-01-01 up to today. -/
def analyzeP3 (lid : String) : FbParams :=
  { action := "get_events", fromD := some (.lit "2023-01-01"),
    toD := some .today, league_id := some lid }

/-- The single head-to-head line produced for an `mkH2H` entry. -/
def h2hBlockOf (hn hs' as' an : String) : String :=
  "  - " ++ hn ++ " " ++ hs' ++ " - " ++ as' ++ " " ++ an

/-!
## Claims -/

/-- `Except` bind on a success reduces to the continuation. -/
theorem okBind {ε α β : Type} (a : α) (f : α → Except ε β) :
    (Except.ok a >>= f : Except ε β) = f a := rfl

/-- `Except` bind on an error short-circuits. -/
theorem errBind {ε α β : Type} (e : ε) (f : α → Except ε β) :
    (Except.error e >>= f : Except ε β) = .error e := rfl

/-- `throw` on `Except` is `Except.error`. -/
theorem throwIsError {ε α : Type} (e : ε) : (throw e : Except ε α) = .error e := rfl

/-- `pure` on `Except` is `Except.ok`. -/
theorem pureIsOk {ε α : Type} (a : α) : (pure a : Except ε α) = .ok a := rfl

/-- C7 counterexample: the first server.js variant is a variant of this
repository and registers four HTTP endpoints, not one or two. -/
theorem C7_counterexample : routesServerV1 ∈ allVariantRoutes ∧
    routesServerV1.length = 4 ∧
    ¬(1 ≤ routesServerV1.length ∧ routesServerV1.length ≤ 2) := by
  decide

/-- C7 (amended): every server variant of the repository exposes between one
and four HTTP endpoints. -/
theorem C7_route_count : ∀ rs ∈ allVariantRoutes, 1 ≤ rs.length ∧ rs.length ≤ 4 := by
  decide

/-- Witness for `C7_route_count` at part_003's route list. -/
theorem C7_route_count_witness : 1 ≤ routesPart003.length ∧ routesPart003.length ≤ 4 :=
  C7_route_count routesPart003 (by decide)

/-- C9 counterexample: the payload `{"error": ""}` carries an `error` field,
yet `fetchFootballData` does not throw on it — it returns the payload
unchanged (`data.error` tests truthiness, and `""` is falsy). -/
theorem C9_counterexample :
    fetchFootballData true (.obj [("error", .str "")]) = .ok (.obj [("error", .str "")]) ∧
    hasErrorField (.obj [("error", .str "")]) = true := by
  decide

/-- Full behavioural characterisation of `fetchFootballData` (shared helper). -/
theorem fetchFootballData_spec : ∀ (ok : Bool) (data : Json),
    ((∃ e, fetchFootballData ok data = .error e) ↔
      (ok = false ∨ data = .null ∨ errorFieldTruthy data = true)) ∧
    (ok = true → data ≠ .null → errorFieldTruthy data = false →
      fetchFootballData ok data =
        .ok (if lengthEqOne data && index0IsString data then .arr [] else data)) := by
  intro ok data
  cases ok with
  | false => simp [fetchFootballData, throwIsError]
  | true =>
    cases data with
    | null => simp [fetchFootballData, jsProp, errorFieldTruthy, okBind, errBind]
    | bool b =>
        simp [fetchFootballData, jsProp, errorFieldTruthy, lengthEqOne, index0IsString,
          truthyOpt, okBind, throwIsError, pureIsOk]
    | num n =>
        simp [fetchFootballData, jsProp, errorFieldTruthy, lengthEqOne, index0IsString,
          truthyOpt, okBind, throwIsError, pureIsOk]
    | str s =>
        constructor
        · simp [fetchFootballData, jsProp, truthyOpt, errorFieldTruthy, okBind,
            throwIsError, pureIsOk, jsIndex]
          by_cases h : s.length = 1 <;> simp [h, isStrOpt]
        · intro _ _ _
          have hne : s.length = 1 → s ≠ "" := by
            intro h1 hemp
            rw [hemp] at h1
            exact absurd h1 (by decide)
          simp [fetchFootballData, jsProp, truthyOpt, okBind, throwIsError, pureIsOk,
            jsIndex, lengthEqOne, index0IsString]
          by_cases h : s.length = 1
          · simp [h, isStrOpt, hne h]
          · simp [h]
    | arr xs =>
        constructor
        · simp [fetchFootballData, jsProp, truthyOpt, errorFieldTruthy, okBind,
            throwIsError, pureIsOk, jsIndex]
          by_cases h : xs.length = 1 <;> simp [h]
          intro e he
          revert he
          split <;> simp
        · intro _ _ _
          simp [fetchFootballData, jsProp, truthyOpt, okBind, throwIsError, pureIsOk,
            jsIndex, lengthEqOne, index0IsString]
          by_cases h : xs.length = 1 <;> simp [h]
          split <;> simp_all
    | obj ms =>
        have toStr0 : toString (0 : Nat) = "0" := rfl
        constructor
        · simp [fetchFootballData, jsProp, errorFieldTruthy, okBind,
            throwIsError, pureIsOk, jsIndex]
          by_cases herr : truthyOpt (objFind ms "error") = true
          · simp [herr]
          · simp [herr]
            by_cases h : objFind ms "length" = some (.num 1) <;> simp [h]
            intro e he
            revert he
            split <;> simp
        · intro _ _ herr
          simp [errorFieldTruthy] at herr
          simp [fetchFootballData, jsProp, herr, okBind, throwIsError,
            pureIsOk, jsIndex, lengthEqOne, index0IsString, toStr0]
          by_cases h : objFind ms "length" = some (.num 1) <;> simp [h]
          split <;> simp_all

/-- C9 (amended): given an upstream response (`ok` flag and decoded payload),
`fetchFootballData` throws exactly when the status is not ok, the payload is
`null` (the `data.error` read itself throws), or the payload's `error` field
is truthy; otherwise it returns the empty array exactly when the payload's
`length` property is the number 1 and its element 0 is a string (a one-element
string array, or a single-character string payload), and in every other case
returns the payload unchanged. -/
theorem C9_fetchFootballData_characterization : ∀ (ok : Bool) (data : Json),
    ((∃ e, fetchFootballData ok data = .error e) ↔
      (ok = false ∨ data = .null ∨ errorFieldTruthy data = true)) ∧
    (ok = true → data ≠ .null → errorFieldTruthy data = false →
      fetchFootballData ok data =
        .ok (if lengthEqOne data && index0IsString data then .arr [] else data)) :=
  fetchFootballData_spec

/-- Witness for `C9_fetchFootballData_characterization`: a single-character
string payload is turned into the empty array. -/
theorem C9_characterization_witness :
    fetchFootballData true (.str "x") = .ok (.arr []) := by
  have h := (C9_fetchFootballData_characterization true (.str "x")).2 rfl
    (by decide) (by decide)
  simpa using h

/-- Is the value a JSON object? -/
def Json.isObj : Json → Bool
  | .obj _ => true
  | _ => false

/-- On a list of objects the upcoming-filter never throws and agrees with the
spec-side `statusEmpty` filter. -/
theorem filterUpcoming_objs : ∀ fs : List Json, (∀ f ∈ fs, f.isObj = true) →
    filterUpcoming fs = .ok (fs.filter statusEmpty)
  | [], _ => rfl
  | f :: rest, h => by
      have hobj := h f (by simp)
      have ih := filterUpcoming_objs rest (fun g hg => h g (by simp [hg]))
      match f, hobj with
      | .obj ms, _ =>
          by_cases hst : objFind ms "match_status" = some (.str "")
          · simp [filterUpcoming, jsProp, okBind, ih, pureIsOk, List.filter_cons,
              statusEmpty, beq_iff_eq, hst]
          · simp [filterUpcoming, jsProp, okBind, ih, pureIsOk, List.filter_cons,
              statusEmpty, beq_iff_eq, hst]

/-- On a list of objects the row mapping never throws and agrees with the
spec-side `rowOfObj` (stated on `List.mapM.loop`, the unfolding of
`List.mapM`). -/
theorem mapRowsLoop_objs : ∀ (fs acc : List Json), (∀ f ∈ fs, f.isObj = true) →
    List.mapM.loop fixtureRow fs acc = .ok (acc.reverse ++ fs.map rowOfObj)
  | [], acc, _ => by simp [List.mapM.loop, pureIsOk]
  | f :: rest, acc, h => by
      have hobj := h f (by simp)
      have ih := mapRowsLoop_objs rest (rowOfObj f :: acc)
        (fun g hg => h g (by simp [hg]))
      match f, hobj with
      | .obj ms, _ =>
          have hrow : fixtureRow (.obj ms) = .ok (rowOfObj (.obj ms)) := rfl
          simp only [List.mapM.loop, hrow, okBind]
          rw [ih]
          simp

/-- An all-objects array payload passes through `fetchFootballData`
unchanged. -/
theorem fetchFB_arr_objs (fs : List Json) (h : ∀ f ∈ fs, f.isObj = true) :
    fetchFootballData true (.arr fs) = .ok (.arr fs) := by
  have hspec := (fetchFootballData_spec true (.arr fs)).2 rfl (by simp) (by simp [errorFieldTruthy])
  rw [hspec]
  have : (lengthEqOne (.arr fs) && index0IsString (.arr fs)) = false := by
    simp [lengthEqOne, index0IsString]
    intro hlen
    match fs, hlen with
    | [f], _ =>
        have := h f (by simp)
        cases f <;> simp_all [isStrOpt, Json.isObj]
  rw [this]
  rfl

/-- C8 counterexample: an upstream payload with a truthy `error` field is not
an array, yet `GET /api/fixtures/:leagueId` answers HTTP 500 (the error thrown
by `fetchFootballData`), not the empty list. -/
theorem C8_counterexample :
    (fixturesHandler "5" (fun _ => (true, .obj [("error", .str "No event found!")]))).2 =
      ⟨500, errObj "Football API Error"⟩ ∧
    Json.isArr (.obj [("error", .str "No event found!")]) = false := by
  constructor
  · rfl
  · rfl

/-- C8 (amended): `GET /api/fixtures/:leagueId` requests the events of the
league over the window from today to today + 14 days; when the upstream
payload is an array of fixture objects it answers 200 with exactly the
fixtures whose `match_status` is the empty string, each mapped to
`{ id, leagueId, name: "<home> vs <away>", homeTeamName, awayTeamName,
date }`, excluding every fixture with a non-empty status; when the payload is
a non-array value that is not `null` and has no truthy `error` field, it
answers 200 with the empty list (a truthy `error` field or a `null` payload
is a thrown error, answered with HTTP 500). -/
theorem C8_fixtures_behaviour : ∀ (lg : String) (env : FbParams → Bool × Json),
    (∀ fs, env (fixturesParams lg) = (true, .arr fs) → (∀ f ∈ fs, f.isObj = true) →
      fixturesHandler lg env =
        ([.fetchFootball (fixturesParams lg)],
          ⟨200, .arr ((fs.filter statusEmpty).map rowOfObj)⟩)) ∧
    (∀ d, env (fixturesParams lg) = (true, d) → d.isArr = false → d ≠ .null →
      errorFieldTruthy d = false →
      fixturesHandler lg env = ([.fetchFootball (fixturesParams lg)], ⟨200, .arr []⟩)) := by
  intro lg env
  constructor
  · intro fs henv hobjs
    have hfilter :=
      filterUpcoming_objs fs hobjs
    have hsurv : ∀ f ∈ fs.filter statusEmpty, f.isObj = true := by
      intro f hf
      exact hobjs f (List.mem_of_mem_filter hf)
    have hrows := mapRowsLoop_objs (fs.filter statusEmpty) [] hsurv
    simp [fixturesHandler, henv, fetchFB_arr_objs fs hobjs, hfilter, hrows, okBind,
      pureIsOk, List.mapM]
  · intro d henv harr hnull herr
    have hspec := (fetchFootballData_spec true d).2 rfl hnull herr
    by_cases hc : (lengthEqOne d && index0IsString d) = true
    · rw [hc] at hspec
      simp [fixturesHandler, henv, hspec, filterUpcoming, okBind, pureIsOk]
      rfl
    · rw [Bool.not_eq_true] at hc
      rw [hc] at hspec
      have hmatch : (match d with | .arr xs => xs | _ => ([] : List Json)) = [] := by
        cases d <;> simp_all [Json.isArr]
      simp [fixturesHandler, henv, hspec, hmatch, filterUpcoming, okBind, pureIsOk]
      rfl

/-- The two-fixture payload used by the C8 witness: one upcoming, one
finished. -/
def c8wFs : List Json :=
  [.obj [("match_id", .str "1"), ("league_id", .str "7"),
    ("match_hometeam_name", .str "A"), ("match_awayteam_name", .str "B"),
    ("match_date", .str "2026-10-12"), ("match_status", .str "")],
   .obj [("match_id", .str "2"), ("league_id", .str "7"),
    ("match_hometeam_name", .str "C"), ("match_awayteam_name", .str "D"),
    ("match_date", .str "2026-10-13"), ("match_status", .str "Finished")]]

/-- The mocked upstream of the C8 witness. -/
def c8wEnv : FbParams → Bool × Json := fun _ => (true, .arr c8wFs)

/-- Witness for `C8_fixtures_behaviour`: one upcoming and one finished
fixture; only the upcoming one is returned, mapped to the reduced shape. -/
theorem C8_fixtures_witness :
    fixturesHandler "7" c8wEnv =
      ([.fetchFootball (fixturesParams "7")],
        ⟨200, .arr [.obj [("id", .str "1"), ("leagueId", .str "7"),
          ("name", .str "A vs B"), ("homeTeamName", .str "A"),
          ("awayTeamName", .str "B"), ("date", .str "2026-10-12")]]⟩) := by
  have h := (C8_fixtures_behaviour "7" c8wEnv).1 c8wFs rfl (by decide)
  rw [h]
  decide

/-- A trivial indicator library used in concrete runs. -/
def lib0 : IndicatorLib :=
  ⟨fun _ => [], fun _ => [], fun _ => [], fun _ _ => []⟩

/-- The candle object used in part_008 concrete runs. -/
def c2tick : Json :=
  .obj [("time", .str "2026-01-01T00:00:00.000Z"), ("open", .str "1"),
    ("high", .str "2"), ("low", .str "0"), ("close", .str "1")]

/-- C2 counterexample: in part_008, when the 15-second timeout aborts the
Gemini call, the caught `AbortError` is converted into a fallback analysis
object and the server answers HTTP 200 — a caught error that does not produce
a 500 response. -/
theorem C2_counterexample :
    (analyze008 ⟨some (.str "R_50"), some (.str "1m")⟩ (fun _ _ => .ok [c2tick])
      .abortError (fun _ => none)).2 =
      ⟨200, .obj [("analysis", fallback8 "Analysis request timed out. Please try again.")]⟩ := by
  decide

/-- C2 (amended): errors thrown in a request-handler body are caught and
answered with HTTP 500 carrying the error message (server.js `POST
/api/analyze`); but errors caught below the handler are converted into
fallback values instead: part_008's `analyzeWithGemini` turns an aborted LLM
call into a fallback analysis object that the handler relays with HTTP 200,
and part_001's `fetchFootballData` turns a failed upstream fetch into an
empty array. -/
theorem C2_error_handling :
    (∀ (body : BodyV1) env llm parse tr e,
      analyzeV1core body env llm parse = (tr, .error e) →
      analyzeV1 body env llm parse = (tr, ⟨500, errObj e⟩)) ∧
    (∀ (data : List Json) tf parse p r,
      analyzeWithGemini data tf .abortError parse = .ok (p, r) →
      r = fallback8 "Analysis request timed out. Please try again.") ∧
    (∀ (body : Body8) ohlc parse gr data p r,
      truthyOpt body.symbol = true → truthyOpt body.timeframe = true →
      granularityMap8 (jsToStringOpt body.timeframe) = some gr →
      ohlc (jsToStringOpt body.symbol) gr = .ok data →
      analyzeWithGemini data (jsToStringOpt body.timeframe) .abortError parse = .ok (p, r) →
      analyze008 body ohlc .abortError parse =
        ([.ohlcFetch8 (jsToStringOpt body.symbol) gr, .llmCall8 p],
          ⟨200, .obj [("analysis", r)]⟩)) ∧
    (∀ o e, fetchFootballData001core o = .error e → fetchFootballData001 o = .arr []) := by
  refine ⟨?_, ?_, ?_, ?_⟩
  · intro body env llm parse tr e h
    simp [analyzeV1, h]
  · intro data tf parse p r h
    unfold analyzeWithGemini at h
    cases hm : List.mapM tickLine8 data with
    | error e => rw [hm] at h; simp [errBind] at h
    | ok lines =>
        rw [hm] at h
        simp [okBind, pureIsOk] at h
        exact h.2.symm
  · intro body ohlc parse gr data p r hs ht hg ho hawg
    simp [analyze008, hs, ht, hg, ho, hawg]
  · intro o e h
    simp [fetchFootballData001, h]

/-- Witness for `C2_error_handling`: a failed first fetch yields a 500 with
the error message; a rejected part_001 fetch yields the empty array. -/
theorem C2_error_handling_witness :
    analyzeV1 ⟨some (.str "1"), some (.str "2")⟩ (fun _ => (false, .null))
      (fun _ => (false, .null)) (fun _ => none) =
      ([.fetchFootball (analyzeP1 "1")],
        ⟨500, errObj "Football API error! Status: not ok"⟩) ∧
    fetchFootballData001 .netError = .arr [] := by
  constructor
  · exact C2_error_handling.1 ⟨some (.str "1"), some (.str "2")⟩
      (fun _ => (false, .null)) (fun _ => (false, .null)) (fun _ => none)
      [.fetchFootball (analyzeP1 "1")] "Football API error! Status: not ok" (by decide)
  · exact C2_error_handling.2.2.2 .netError "fetch rejected" rfl

/-- C10: every modelled POST analyze endpoint answers 400 with an error
message and issues no outbound call (and, for part_006, leaves the module
state untouched) whenever a required body field is missing or empty. -/
theorem C10_body_validation :
    (∀ (body : BodyV1) env llm parse,
      truthyOpt body.fixtureId = false ∨ truthyOpt body.leagueId = false →
      analyzeV1 body env llm parse =
        ([], ⟨400, errObj "Missing required parameters for analysis."⟩)) ∧
    (∀ (body : Body3) price ohlc llmText parse nowIso,
      truthyOpt body.asset = false ∨ truthyOpt body.timeframes = false ∨
        lengthPropIsZero ((body.timeframes).getD .null) = true →
      analyze003 body price ohlc llmText parse nowIso =
        ([], ⟨400, errObj "Missing asset or timeframe selection."⟩)) ∧
    (∀ (s : State6) (body : Body6) arrived lib llm parse,
      truthyOpt body.asset = false ∨ truthyOpt body.timeframe = false →
      analyze006 s body arrived lib llm parse =
        (s, [], ⟨400, errObj "Asset and timeframe are required."⟩)) ∧
    (∀ (body : Body8) ohlc gemini parse,
      truthyOpt body.symbol = false ∨ truthyOpt body.timeframe = false →
      analyze008 body ohlc gemini parse =
        ([], ⟨400, errObj "Asset symbol and timeframe are required."⟩)) := by
  refine ⟨?_, ?_, ?_, ?_⟩
  · intro body env llm parse h
    rcases h with h | h <;> simp [analyzeV1, analyzeV1core, h]
  · intro body price ohlc llmText parse nowIso h
    rcases h with h | h | h <;> simp [analyze003, h]
  · intro s body arrived lib llm parse h
    rcases h with h | h <;> simp [analyze006, h]
  · intro body ohlc gemini parse h
    rcases h with h | h <;> simp [analyze008, h]

/-- Witness for `C10_body_validation`: concrete bodies with a missing or
empty required field are all rejected with 400 and no outbound call. -/
theorem C10_body_validation_witness :
    analyzeV1 ⟨none, some (.str "2")⟩ (fun _ => (true, .null)) (fun _ => (true, .null))
      (fun _ => none) = ([], ⟨400, errObj "Missing required parameters for analysis."⟩) ∧
    analyze003 ⟨some (.str "EUR/USD"), some (.arr [])⟩ (fun _ => .error "ws")
      (fun _ _ => .error "ws") (fun _ => .error "ws") (fun _ => none) "T" =
      ([], ⟨400, errObj "Missing asset or timeframe selection."⟩) ∧
    analyze006 {} ⟨some (.str ""), some (.str "1m")⟩ [] lib0 (fun _ => (false, .null))
      (fun _ => none) = ({}, [], ⟨400, errObj "Asset and timeframe are required."⟩) ∧
    analyze008 ⟨some (.str "R_50"), none⟩ (fun _ _ => .error "ws") .fetchFailed
      (fun _ => none) = ([], ⟨400, errObj "Asset symbol and timeframe are required."⟩) :=
  ⟨C10_body_validation.1 _ _ _ _ (Or.inl (by decide)),
   C10_body_validation.2.1 _ _ _ _ _ _ (Or.inr (Or.inr (by decide))),
   C10_body_validation.2.2.1 _ _ _ _ _ _ (Or.inl (by decide)),
   C10_body_validation.2.2.2 _ _ _ _ (Or.inr (by decide))⟩

/-- Success-path evaluation of server.js's `POST /api/analyze` (shared
helper): with truthy body fields and all three upstream fetches, the LLM call
and the JSON parse succeeding, the handler issues exactly the three fetches
followed by one LLM call carrying the assembled prompt, and relays the parsed
model JSON with HTTP 200. -/
theorem analyzeV1_success
    (fid lid hn an dt hid aid pos pts gf ga pos2 pts2 gf2 ga2 mhn man mhs mas t : String)
    (j : Json) (env : FbParams → Bool × Json) (llm : String → Bool × Json)
    (parse : String → Option Json)
    (hfid : fid ≠ "") (hlid : lid ≠ "") (hne : hid ≠ aid)
    (henv1 : env (analyzeP1 fid) = (true, .arr [mkFixture hn an dt hid aid]))
    (henv2 : env (analyzeP2 lid) =
      (true, .arr [mkStanding hid pos pts gf ga, mkStanding aid pos2 pts2 gf2 ga2]))
    (henv3 : env (analyzeP3 lid) = (true, .arr [mkH2H hid aid mhn man mhs mas]))
    (hllm : llm (promptV1 hn an dt (h2hBlockOf mhn mhs mas man)
      pos pts gf ga pos2 pts2 gf2 ga2) = (true, mkLlmBody t))
    (hparse : parse t = some j) :
    analyzeV1 ⟨some (.str fid), some (.str lid)⟩ env llm parse =
      ([.fetchFootball (analyzeP1 fid), .fetchFootball (analyzeP2 lid),
        .fetchFootball (analyzeP3 lid),
        .llmCall (promptV1 hn an dt (h2hBlockOf mhn mhs mas man)
          pos pts gf ga pos2 pts2 gf2 ga2)], ⟨200, j⟩) := by
  have hbeqne : (hid == aid) = false := by
    simp [hne]
  have hfx : fetchFootballData true (.arr [mkFixture hn an dt hid aid]) =
      .ok (.arr [mkFixture hn an dt hid aid]) := rfl
  have hst : fetchFootballData true
      (.arr [mkStanding hid pos pts gf ga, mkStanding aid pos2 pts2 gf2 ga2]) =
      .ok (.arr [mkStanding hid pos pts gf ga, mkStanding aid pos2 pts2 gf2 ga2]) := rfl
  have hh2 : fetchFootballData true (.arr [mkH2H hid aid mhn man mhs mas]) =
      .ok (.arr [mkH2H hid aid mhn man mhs mas]) := rfl
  have hfind1 : jsFindByProp
      (.arr [mkStanding hid pos pts gf ga, mkStanding aid pos2 pts2 gf2 ga2])
      "team_id" (some (.str hid)) = .ok (some (mkStanding hid pos pts gf ga)) := by
    simp [jsFindByProp, jsFindByProp.findAux, mkStanding, jsProp, objFind, okBind,
      pureIsOk]
  have hfind2 : jsFindByProp
      (.arr [mkStanding hid pos pts gf ga, mkStanding aid pos2 pts2 gf2 ga2])
      "team_id" (some (.str aid)) = .ok (some (mkStanding aid pos2 pts2 gf2 ga2)) := by
    simp [jsFindByProp, jsFindByProp.findAux, mkStanding, jsProp, objFind, okBind,
      pureIsOk, hbeqne, hne]
  have hh2f : h2hFilter (.arr [mkH2H hid aid mhn man mhs mas])
      (some (.str hid)) (some (.str aid)) = .ok [mkH2H hid aid mhn man mhs mas] := by
    simp [h2hFilter, h2hFilterAux, mkH2H, jsProp, objFind, okBind, pureIsOk,
      Except.map, List.take]
  have hsing : ∀ s : String, String.intercalate "\n" [s] = s := by
    intro s
    simp [String.intercalate, String.intercalate.go]
  have hbp : buildPromptV1 (mkFixture hn an dt hid aid) (mkStanding hid pos pts gf ga)
      (mkStanding aid pos2 pts2 gf2 ga2) [mkH2H hid aid mhn man mhs mas] =
      .ok (promptV1 hn an dt (h2hBlockOf mhn mhs mas man)
        pos pts gf ga pos2 pts2 gf2 ga2) := by
    simp [buildPromptV1, h2hLineOf, mkFixture, mkStanding, mkH2H, jsProp, objFind,
      okBind, pureIsOk, jsToStringOpt, jsToString, List.mapM, List.mapM.loop,
      h2hBlockOf, hsing]
  have hextract : extractAnalysis (mkLlmBody t) parse = .ok j := by
    simp [extractAnalysis, geminiCondAndText, mkLlmBody, jsProp, jsPropO, jsIndex,
      jsIndexO, objFind, okBind, pureIsOk, truthyOpt, truthy, numGtZero,
      jsToStringOpt, jsToString, hparse]
  have hguard : (!truthyOpt (some (Json.str fid)) || !truthyOpt (some (Json.str lid))) = false := by
    simp [truthyOpt, truthy, hfid, hlid]
  have hgf : truthyOpt (some (mkFixture hn an dt hid aid)) = true := rfl
  have hgs1 : truthyOpt (some (mkStanding hid pos pts gf ga)) = true := rfl
  have hgs2 : truthyOpt (some (mkStanding aid pos2 pts2 gf2 ga2)) = true := rfl
  have hteam1 : jsProp (mkFixture hn an dt hid aid) "match_hometeam_id" =
      .ok (some (.str hid)) := rfl
  have hteam2 : jsProp (mkFixture hn an dt hid aid) "match_awayteam_id" =
      .ok (some (.str aid)) := rfl
  have htid1 : jsProp (mkStanding hid pos pts gf ga) "team_id" =
      .ok (some (.str hid)) := rfl
  have htid2 : jsProp (mkStanding aid pos2 pts2 gf2 ga2) "team_id" =
      .ok (some (.str aid)) := rfl
  have hlenfx : jsProp (.arr [mkFixture hn an dt hid aid]) "length" =
      .ok (some (.num 1)) := rfl
  have hidx0 : jsIndex (.arr [mkFixture hn an dt hid aid]) 0 =
      .ok (some (mkFixture hn an dt hid aid)) := rfl
  have hgt : numGtZero (some (.num 1)) = true := rfl
  have hif : ∀ {α : Type} (a b : α), (if false = true then a else b) = b :=
    fun a b => rfl
  simp only [analyzeP1, analyzeP2, analyzeP3] at henv1 henv2 henv3
  unfold analyzeV1 analyzeV1core
  simp only [jsToStringOpt, jsToString, hguard, hif, if_true, if_false, eq_self_iff_true]
  try simp only [henv1, hfx, if_true, if_false, eq_self_iff_true]
  try simp only [hlenfx, okBind, hgt, hidx0, pureIsOk, hif, if_true, if_false, eq_self_iff_true]
  try simp only [hgf, Bool.not_true, hif, Option.getD, if_true, if_false, eq_self_iff_true]
  try simp only [henv2, hst, if_true, if_false, eq_self_iff_true]
  try simp only [hteam1, okBind, hfind1, hteam2, hfind2, pureIsOk, if_true, if_false, eq_self_iff_true]
  try simp only [hgs1, hgs2, Bool.not_true, Bool.or_self, hif, if_true, if_false, eq_self_iff_true]
  try simp only [henv3, hh2, if_true, if_false, eq_self_iff_true]
  try simp only [htid1, htid2, okBind, pureIsOk]
  try simp only [hh2f]
  try simp only [hbp, okBind]
  try simp only [hllm, Bool.not_true, hif, if_true, if_false]
  try simp only [hextract]
  simp only [analyzeP1, analyzeP2, analyzeP3]

/-- A string occurs in itself. -/
theorem containsSub_refl (s : String) : containsSub s s :=
  ⟨"", "", by simp⟩

/-- Containment is preserved by prepending. -/
theorem containsSub_appL (a b c : String) (h : containsSub b c) : containsSub (a ++ b) c := by
  obtain ⟨l, r, rfl⟩ := h
  exact ⟨a ++ l, r, by simp [String.append_assoc]⟩

/-- Containment is transitive. -/
theorem containsSub_trans (a b c : String) (h1 : containsSub a b) (h2 : containsSub b c) :
    containsSub a c := by
  obtain ⟨l, r, rfl⟩ := h1
  obtain ⟨l2, r2, rfl⟩ := h2
  exact ⟨l ++ l2, r2 ++ r, by simp [String.append_assoc]⟩

/-- The head-to-head scores occur verbatim in the head-to-head block line. -/
theorem h2hBlockOf_embeds (hn hs' as' an : String) :
    containsSub (h2hBlockOf hn hs' as' an) hs' ∧ containsSub (h2hBlockOf hn hs' as' an) as' :=
  ⟨⟨"  - " ++ hn ++ " ", " - " ++ as' ++ " " ++ an, by simp [h2hBlockOf, String.append_assoc]⟩,
   ⟨"  - " ++ hn ++ " " ++ hs' ++ " - ", " " ++ an, by simp [h2hBlockOf, String.append_assoc]⟩⟩

/-- The stringified asset data occurs verbatim inside part_002's prompt. -/
theorem prompt002_embeds (a : Json) : containsSub (prompt002 a) (jsonStringify a) :=
  ⟨prompt002chunk0, prompt002chunk1, by simp [prompt002, String.append_assoc]⟩

/-- Every interpolated value occurs verbatim inside the assembled server.js
analyze prompt. -/
theorem promptV1_embeds (hn an dt h2hBlock pos pts gf ga pos2 pts2 gf2 ga2 : String) :
    containsSub (promptV1 hn an dt h2hBlock pos pts gf ga pos2 pts2 gf2 ga2) hn ∧
    containsSub (promptV1 hn an dt h2hBlock pos pts gf ga pos2 pts2 gf2 ga2) an ∧
    containsSub (promptV1 hn an dt h2hBlock pos pts gf ga pos2 pts2 gf2 ga2) dt ∧
    containsSub (promptV1 hn an dt h2hBlock pos pts gf ga pos2 pts2 gf2 ga2) h2hBlock ∧
    containsSub (promptV1 hn an dt h2hBlock pos pts gf ga pos2 pts2 gf2 ga2) pos ∧
    containsSub (promptV1 hn an dt h2hBlock pos pts gf ga pos2 pts2 gf2 ga2) pts ∧
    containsSub (promptV1 hn an dt h2hBlock pos pts gf ga pos2 pts2 gf2 ga2) gf ∧
    containsSub (promptV1 hn an dt h2hBlock pos pts gf ga pos2 pts2 gf2 ga2) ga ∧
    containsSub (promptV1 hn an dt h2hBlock pos pts gf ga pos2 pts2 gf2 ga2) pos2 ∧
    containsSub (promptV1 hn an dt h2hBlock pos pts gf ga pos2 pts2 gf2 ga2) pts2 ∧
    containsSub (promptV1 hn an dt h2hBlock pos pts gf ga pos2 pts2 gf2 ga2) gf2 ∧
    containsSub (promptV1 hn an dt h2hBlock pos pts gf ga pos2 pts2 gf2 ga2) ga2 :=
  ⟨⟨pv1c0, pv1c1 ++ an ++ pv1c2 ++ dt ++ pv1c3 ++ h2hBlock ++ pv1c4 ++ pos ++ pv1c5 ++ pts ++ pv1c6 ++ gf ++ pv1c7 ++ ga ++ pv1c8 ++ pos2 ++ pv1c9 ++ pts2 ++ pv1c10 ++ gf2 ++ pv1c11 ++ ga2 ++ pv1c12, by simp [promptV1, String.append_assoc]⟩,
   ⟨pv1c0 ++ hn ++ pv1c1, pv1c2 ++ dt ++ pv1c3 ++ h2hBlock ++ pv1c4 ++ pos ++ pv1c5 ++ pts ++ pv1c6 ++ gf ++ pv1c7 ++ ga ++ pv1c8 ++ pos2 ++ pv1c9 ++ pts2 ++ pv1c10 ++ gf2 ++ pv1c11 ++ ga2 ++ pv1c12, by simp [promptV1, String.append_assoc]⟩,
   ⟨pv1c0 ++ hn ++ pv1c1 ++ an ++ pv1c2, pv1c3 ++ h2hBlock ++ pv1c4 ++ pos ++ pv1c5 ++ pts ++ pv1c6 ++ gf ++ pv1c7 ++ ga ++ pv1c8 ++ pos2 ++ pv1c9 ++ pts2 ++ pv1c10 ++ gf2 ++ pv1c11 ++ ga2 ++ pv1c12, by simp [promptV1, String.append_assoc]⟩,
   ⟨pv1c0 ++ hn ++ pv1c1 ++ an ++ pv1c2 ++ dt ++ pv1c3, pv1c4 ++ pos ++ pv1c5 ++ pts ++ pv1c6 ++ gf ++ pv1c7 ++ ga ++ pv1c8 ++ pos2 ++ pv1c9 ++ pts2 ++ pv1c10 ++ gf2 ++ pv1c11 ++ ga2 ++ pv1c12, by simp [promptV1, String.append_assoc]⟩,
   ⟨pv1c0 ++ hn ++ pv1c1 ++ an ++ pv1c2 ++ dt ++ pv1c3 ++ h2hBlock ++ pv1c4, pv1c5 ++ pts ++ pv1c6 ++ gf ++ pv1c7 ++ ga ++ pv1c8 ++ pos2 ++ pv1c9 ++ pts2 ++ pv1c10 ++ gf2 ++ pv1c11 ++ ga2 ++ pv1c12, by simp [promptV1, String.append_assoc]⟩,
   ⟨pv1c0 ++ hn ++ pv1c1 ++ an ++ pv1c2 ++ dt ++ pv1c3 ++ h2hBlock ++ pv1c4 ++ pos ++ pv1c5, pv1c6 ++ gf ++ pv1c7 ++ ga ++ pv1c8 ++ pos2 ++ pv1c9 ++ pts2 ++ pv1c10 ++ gf2 ++ pv1c11 ++ ga2 ++ pv1c12, by simp [promptV1, String.append_assoc]⟩,
   ⟨pv1c0 ++ hn ++ pv1c1 ++ an ++ pv1c2 ++ dt ++ pv1c3 ++ h2hBlock ++ pv1c4 ++ pos ++ pv1c5 ++ pts ++ pv1c6, pv1c7 ++ ga ++ pv1c8 ++ pos2 ++ pv1c9 ++ pts2 ++ pv1c10 ++ gf2 ++ pv1c11 ++ ga2 ++ pv1c12, by simp [promptV1, String.append_assoc]⟩,
   ⟨pv1c0 ++ hn ++ pv1c1 ++ an ++ pv1c2 ++ dt ++ pv1c3 ++ h2hBlock ++ pv1c4 ++ pos ++ pv1c5 ++ pts ++ pv1c6 ++ gf ++ pv1c7, pv1c8 ++ pos2 ++ pv1c9 ++ pts2 ++ pv1c10 ++ gf2 ++ pv1c11 ++ ga2 ++ pv1c12, by simp [promptV1, String.append_assoc]⟩,
   ⟨pv1c0 ++ hn ++ pv1c1 ++ an ++ pv1c2 ++ dt ++ pv1c3 ++ h2hBlock ++ pv1c4 ++ pos ++ pv1c5 ++ pts ++ pv1c6 ++ gf ++ pv1c7 ++ ga ++ pv1c8, pv1c9 ++ pts2 ++ pv1c10 ++ gf2 ++ pv1c11 ++ ga2 ++ pv1c12, by simp [promptV1, String.append_assoc]⟩,
   ⟨pv1c0 ++ hn ++ pv1c1 ++ an ++ pv1c2 ++ dt ++ pv1c3 ++ h2hBlock ++ pv1c4 ++ pos ++ pv1c5 ++ pts ++ pv1c6 ++ gf ++ pv1c7 ++ ga ++ pv1c8 ++ pos2 ++ pv1c9, pv1c10 ++ gf2 ++ pv1c11 ++ ga2 ++ pv1c12, by simp [promptV1, String.append_assoc]⟩,
   ⟨pv1c0 ++ hn ++ pv1c1 ++ an ++ pv1c2 ++ dt ++ pv1c3 ++ h2hBlock ++ pv1c4 ++ pos ++ pv1c5 ++ pts ++ pv1c6 ++ gf ++ pv1c7 ++ ga ++ pv1c8 ++ pos2 ++ pv1c9 ++ pts2 ++ pv1c10, pv1c11 ++ ga2 ++ pv1c12, by simp [promptV1, String.append_assoc]⟩,
   ⟨pv1c0 ++ hn ++ pv1c1 ++ an ++ pv1c2 ++ dt ++ pv1c3 ++ h2hBlock ++ pv1c4 ++ pos ++ pv1c5 ++ pts ++ pv1c6 ++ gf ++ pv1c7 ++ ga ++ pv1c8 ++ pos2 ++ pv1c9 ++ pts2 ++ pv1c10 ++ gf2 ++ pv1c11, pv1c12, by simp [promptV1, String.append_assoc]⟩⟩

/-- C1: with mocked upstream responses, server.js's analyze handler embeds
the fetched team names, match date, head-to-head scores and standings
statistics verbatim in the prompt it sends to the LLM endpoint, and relays
the model's parsed JSON response unchanged; part_002's analyze-asset handler
embeds the stringified asset data in its prompt and relays the parsed
(fence-stripped) model JSON unchanged. -/
theorem C1_prompt_embedding_and_relay :
    (∀ (fid lid hn an dt hid aid pos pts gf ga pos2 pts2 gf2 ga2 mhn man mhs mas t : String)
      (j : Json) (env : FbParams → Bool × Json) (llm : String → Bool × Json)
      (parse : String → Option Json),
      fid ≠ "" → lid ≠ "" → hid ≠ aid →
      env (analyzeP1 fid) = (true, .arr [mkFixture hn an dt hid aid]) →
      env (analyzeP2 lid) =
        (true, .arr [mkStanding hid pos pts gf ga, mkStanding aid pos2 pts2 gf2 ga2]) →
      env (analyzeP3 lid) = (true, .arr [mkH2H hid aid mhn man mhs mas]) →
      llm (promptV1 hn an dt (h2hBlockOf mhn mhs mas man) pos pts gf ga pos2 pts2 gf2 ga2) =
        (true, mkLlmBody t) →
      parse t = some j →
      (analyzeV1 ⟨some (.str fid), some (.str lid)⟩ env llm parse).2 = ⟨200, j⟩ ∧
      Ev.llmCall (promptV1 hn an dt (h2hBlockOf mhn mhs mas man)
        pos pts gf ga pos2 pts2 gf2 ga2) ∈
        (analyzeV1 ⟨some (.str fid), some (.str lid)⟩ env llm parse).1 ∧
      containsSub (promptV1 hn an dt (h2hBlockOf mhn mhs mas man)
        pos pts gf ga pos2 pts2 gf2 ga2) hn ∧
      containsSub (promptV1 hn an dt (h2hBlockOf mhn mhs mas man)
        pos pts gf ga pos2 pts2 gf2 ga2) an ∧
      containsSub (promptV1 hn an dt (h2hBlockOf mhn mhs mas man)
        pos pts gf ga pos2 pts2 gf2 ga2) dt ∧
      containsSub (promptV1 hn an dt (h2hBlockOf mhn mhs mas man)
        pos pts gf ga pos2 pts2 gf2 ga2) mhs ∧
      containsSub (promptV1 hn an dt (h2hBlockOf mhn mhs mas man)
        pos pts gf ga pos2 pts2 gf2 ga2) mas ∧
      containsSub (promptV1 hn an dt (h2hBlockOf mhn mhs mas man)
        pos pts gf ga pos2 pts2 gf2 ga2) pos ∧
      containsSub (promptV1 hn an dt (h2hBlockOf mhn mhs mas man)
        pos pts gf ga pos2 pts2 gf2 ga2) pts ∧
      containsSub (promptV1 hn an dt (h2hBlockOf mhn mhs mas man)
        pos pts gf ga pos2 pts2 gf2 ga2) gf ∧
      containsSub (promptV1 hn an dt (h2hBlockOf mhn mhs mas man)
        pos pts gf ga pos2 pts2 gf2 ga2) ga ∧
      containsSub (promptV1 hn an dt (h2hBlockOf mhn mhs mas man)
        pos pts gf ga pos2 pts2 gf2 ga2) pos2 ∧
      containsSub (promptV1 hn an dt (h2hBlockOf mhn mhs mas man)
        pos pts gf ga pos2 pts2 gf2 ga2) pts2 ∧
      containsSub (promptV1 hn an dt (h2hBlockOf mhn mhs mas man)
        pos pts gf ga pos2 pts2 gf2 ga2) gf2 ∧
      containsSub (promptV1 hn an dt (h2hBlockOf mhn mhs mas man)
        pos pts gf ga pos2 pts2 gf2 ga2) ga2) ∧
    (∀ (a : Json) (t : String) (j : Json) (llm : String → Except String String)
      (parse : String → Option Json),
      truthy a = true → llm (prompt002 a) = .ok t → parse (cleanText002 t) = some j →
      analyzeAsset002 (some a) llm parse = ([.llmCall (prompt002 a)], ⟨200, j⟩) ∧
      containsSub (prompt002 a) (jsonStringify a)) := by
  constructor
  · intro fid lid hn an dt hid aid pos pts gf ga pos2 pts2 gf2 ga2 mhn man mhs mas t
      j env llm parse hfid hlid hne henv1 henv2 henv3 hllm hparse
    have hmain := analyzeV1_success fid lid hn an dt hid aid pos pts gf ga pos2 pts2
      gf2 ga2 mhn man mhs mas t j env llm parse hfid hlid hne henv1 henv2 henv3
      hllm hparse
    obtain ⟨e1, e2, e3, e4, e5, e6, e7, e8, e9, e10, e11, e12⟩ :=
      promptV1_embeds hn an dt (h2hBlockOf mhn mhs mas man) pos pts gf ga pos2 pts2 gf2 ga2
    obtain ⟨s1, s2⟩ := h2hBlockOf_embeds mhn mhs mas man
    rw [hmain]
    refine ⟨rfl, by simp, e1, e2, e3, ?_, ?_, e5, e6, e7, e8, e9, e10, e11, e12⟩
    · exact containsSub_trans _ _ _ e4 s1
    · exact containsSub_trans _ _ _ e4 s2
  · intro a t j llm parse ha hllm hparse
    refine ⟨?_, prompt002_embeds a⟩
    simp [analyzeAsset002, truthyOpt, ha, hllm, hparse]

/-- The mocked football API of the C1 witness. -/
def c1env : FbParams → Bool × Json := fun p =>
  if p = analyzeP1 "42" then (true, .arr [mkFixture "A" "B" "2026-01-01" "H" "W"])
  else if p = analyzeP2 "7" then
    (true, .arr [mkStanding "H" "1" "50" "40" "10", mkStanding "W" "2" "45" "30" "15"])
  else (true, .arr [mkH2H "H" "W" "A" "B" "2" "1"])

/-- The mocked Gemini endpoint of the C1 witness. -/
def c1llm : String → Bool × Json := fun _ => (true, mkLlmBody "PAYLOAD")

/-- The mocked `JSON.parse` of the C1 witness. -/
def c1parse : String → Option Json := fun s =>
  if s = "PAYLOAD" then some (.obj [("predictedOutcome", .str "Home Win")]) else none

/-- The mocked model of the part_002 witness half. -/
def c1llm2 : String → Except String String := fun _ => .ok "JSONTEXT"

/-- The mocked `JSON.parse` of the part_002 witness half. -/
def c1parse2 : String → Option Json := fun s =>
  if s = "JSONTEXT" then some (.obj [("sentiment", .str "Neutral")]) else none

/-- Witness for `C1_prompt_embedding_and_relay`: a fully mocked run relays
the model JSON unchanged in both variants. -/
theorem C1_witness :
    (analyzeV1 ⟨some (.str "42"), some (.str "7")⟩ c1env c1llm c1parse).2 =
      ⟨200, .obj [("predictedOutcome", .str "Home Win")]⟩ ∧
    analyzeAsset002 (some (.num 5)) c1llm2 c1parse2 =
      ([.llmCall (prompt002 (.num 5))], ⟨200, .obj [("sentiment", .str "Neutral")]⟩) :=
  ⟨(C1_prompt_embedding_and_relay.1 "42" "7" "A" "B" "2026-01-01" "H" "W"
      "1" "50" "40" "10" "2" "45" "30" "15" "A" "B" "2" "1" "PAYLOAD"
      (.obj [("predictedOutcome", .str "Home Win")]) c1env c1llm c1parse
      (by decide) (by decide) (by decide) (by decide) (by decide) (by decide)
      rfl (by decide)).1,
   (C1_prompt_embedding_and_relay.2 (.num 5) "JSONTEXT"
      (.obj [("sentiment", .str "Neutral")]) c1llm2 c1parse2
      (by decide) rfl (by decide)).1⟩

/-- C5 counterexample: an analyze request whose first upstream fetch responds
with a non-ok status sends no prompt to the LLM endpoint at all — the prompt
is not "sent exactly once" for every analyze request. -/
theorem C5_counterexample :
    llmCount (analyzeV1 ⟨some (.str "42"), some (.str "7")⟩ (fun _ => (false, .null))
      (fun _ => (true, .null)) (fun _ => none)).1 = 0 ∧
    (analyzeV1 ⟨some (.str "42"), some (.str "7")⟩ (fun _ => (false, .null))
      (fun _ => (true, .null)) (fun _ => none)).2.status = 500 := by
  constructor
  · rfl
  · rfl

/-- The Gemini structure extraction succeeds on a well-formed body (shared
helper). -/
theorem geminiCondAndText_mk (t : String) :
    geminiCondAndText (mkLlmBody t) = .ok (true, some (.str t)) := by
  simp [geminiCondAndText, mkLlmBody, jsProp, jsPropO, jsIndex, jsIndexO, objFind,
    okBind, pureIsOk, truthyOpt, truthy, numGtZero]

/-- C5 (amended): whenever the upstream fetches and the model call succeed,
the analyze pipeline runs as (fetches) → (prompt build) → (one LLM call) →
(relay): server.js's handler issues exactly its three upstream fetches, in
order, before the single LLM call, and relays the parsed model JSON
afterwards; part_000's handler (which has no upstream fetcher) issues exactly
one LLM call and relays the parsed JSON; over all inputs the server.js
handler never issues more than one LLM call; and when the first upstream
fetch fails no prompt is sent at all. -/
theorem C5_pipeline_order :
    (∀ (fid lid hn an dt hid aid pos pts gf ga pos2 pts2 gf2 ga2 mhn man mhs mas t : String)
      (j : Json) (env : FbParams → Bool × Json) (llm : String → Bool × Json)
      (parse : String → Option Json),
      fid ≠ "" → lid ≠ "" → hid ≠ aid →
      env (analyzeP1 fid) = (true, .arr [mkFixture hn an dt hid aid]) →
      env (analyzeP2 lid) =
        (true, .arr [mkStanding hid pos pts gf ga, mkStanding aid pos2 pts2 gf2 ga2]) →
      env (analyzeP3 lid) = (true, .arr [mkH2H hid aid mhn man mhs mas]) →
      llm (promptV1 hn an dt (h2hBlockOf mhn mhs mas man) pos pts gf ga pos2 pts2 gf2 ga2) =
        (true, mkLlmBody t) →
      parse t = some j →
      analyzeV1 ⟨some (.str fid), some (.str lid)⟩ env llm parse =
        ([.fetchFootball (analyzeP1 fid), .fetchFootball (analyzeP2 lid),
          .fetchFootball (analyzeP3 lid),
          .llmCall (promptV1 hn an dt (h2hBlockOf mhn mhs mas man)
            pos pts gf ga pos2 pts2 gf2 ga2)], ⟨200, j⟩)) ∧
    (∀ (hm aw t : String) (j : Json) (llm : String → Json) (parse : String → Option Json),
      hm ≠ "" → aw ≠ "" → llm (prompt000 hm aw) = mkLlmBody t → parse t = some j →
      analyze000 ⟨some (.str hm), some (.str aw)⟩ llm parse =
        ([.llmCall (prompt000 hm aw)], ⟨200, j⟩)) ∧
    (∀ (body : BodyV1) (env : FbParams → Bool × Json) (llm : String → Bool × Json)
      (parse : String → Option Json),
      llmCount (analyzeV1 body env llm parse).1 ≤ 1) ∧
    (∀ (body : BodyV1) (env : FbParams → Bool × Json) (llm : String → Bool × Json)
      (parse : String → Option Json),
      (∀ p, (env p).1 = false) →
      llmCount (analyzeV1 body env llm parse).1 = 0) := by
  refine ⟨?_, ?_, ?_, ?_⟩
  · intro fid lid hn an dt hid aid pos pts gf ga pos2 pts2 gf2 ga2 mhn man mhs mas t
      j env llm parse hfid hlid hne henv1 henv2 henv3 hllm hparse
    exact analyzeV1_success fid lid hn an dt hid aid pos pts gf ga pos2 pts2 gf2 ga2
      mhn man mhs mas t j env llm parse hfid hlid hne henv1 henv2 henv3 hllm hparse
  · intro hm aw t j llm parse hhm haw hllm hparse
    simp [analyze000, truthyOpt, truthy, hhm, haw, hllm, geminiCondAndText_mk,
      jsToStringOpt, jsToString, hparse]
  · intro body env llm parse
    suffices h : llmCount (analyzeV1core body env llm parse).1 ≤ 1 by
      unfold analyzeV1
      rcases hc : analyzeV1core body env llm parse with ⟨tr, r⟩
      rw [hc] at h
      cases r <;> simpa using h
    unfold analyzeV1core
    dsimp only
    repeat' split
    all_goals simp [llmCount, List.countP_cons, List.countP_nil]
  · intro body env llm parse hfail
    unfold analyzeV1 analyzeV1core
    by_cases hg : (!truthyOpt body.fixtureId || !truthyOpt body.leagueId) = true
    · simp [hg, llmCount, List.countP_nil]
    · simp only [hg, Bool.false_eq_true, if_false]
      rcases hp : env (analyzeP1 (jsToStringOpt body.fixtureId)) with ⟨ok1, d1⟩
      have hok : ok1 = false := by
        have h2 := hfail (analyzeP1 (jsToStringOpt body.fixtureId))
        rw [hp] at h2
        exact h2
      simp only [analyzeP1] at hp
      subst hok
      have h1 : fetchFootballData false d1 =
          .error "Football API error! Status: not ok" := rfl
      simp [hp, h1, llmCount, List.countP_cons, List.countP_nil]

/-- Witness for `C5_pipeline_order`: the fully mocked run of the C1 witness
produces the exact four-call trace, and a mocked part_000 run produces its
single LLM call. -/
theorem C5_pipeline_order_witness :
    analyzeV1 ⟨some (.str "42"), some (.str "7")⟩ c1env c1llm c1parse =
      ([.fetchFootball (analyzeP1 "42"), .fetchFootball (analyzeP2 "7"),
        .fetchFootball (analyzeP3 "7"),
        .llmCall (promptV1 "A" "B" "2026-01-01" (h2hBlockOf "A" "2" "1" "B")
          "1" "50" "40" "10" "2" "45" "30" "15")],
        ⟨200, .obj [("predictedOutcome", .str "Home Win")]⟩) ∧
    analyze000 ⟨some (.str "X"), some (.str "Y")⟩ (fun _ => mkLlmBody "PAYLOAD") c1parse =
      ([.llmCall (prompt000 "X" "Y")],
        ⟨200, .obj [("predictedOutcome", .str "Home Win")]⟩) :=
  ⟨C5_pipeline_order.1 "42" "7" "A" "B" "2026-01-01" "H" "W"
      "1" "50" "40" "10" "2" "45" "30" "15" "A" "B" "2" "1" "PAYLOAD"
      (.obj [("predictedOutcome", .str "Home Win")]) c1env c1llm c1parse
      (by decide) (by decide) (by decide) (by decide) (by decide) (by decide)
      rfl (by decide),
   C5_pipeline_order.2.1 "X" "Y" "PAYLOAD"
      (.obj [("predictedOutcome", .str "Home Win")])
      (fun _ => mkLlmBody "PAYLOAD") c1parse
      (by decide) (by decide) rfl (by decide)⟩

/-- The Deriv symbol derived from the request's asset:
`'frx' + asset.replace('/', '').toUpperCase()`. -/
def derivSym (a : String) : String := "frx" ++ toUpperStr (replaceFirst a "/" "")

/-- The timeframes that yielded candles (part_003's `dataForGemini`). -/
def survivors (l : List TfData) : List TfData := l.filter (fun it => it.data.length > 0)

/-- The OHLC payload embedded in part_003's prompt. -/
def dfgJson (l : List TfData) : Json :=
  .arr ((survivors l).map (fun it => .obj [("timeframe", it.timeframe), ("candles", .arr it.data)]))

/-- The OHLC oracle of the C6 counterexample: the one-minute fetch fails, the
one-hour fetch succeeds. -/
def c6ohlc : String → Option Nat → Except String (List Json) := fun _ g =>
  if g = some 60 then .error "ws closed" else .ok [c2tick]

/-- The mocked request, price feed, model and parser of the C6
counterexample. -/
def c6body : Body3 := ⟨some (.str "EUR/USD"), some (.arr [.str "1m", .str "1h"])⟩

def c6price : String → Except String Json := fun _ => .ok (.num 1)

def c6llm : String → Except String String := fun _ => .ok "J"

def c6parse : String → Option Json := fun s =>
  if s = "J" then some (.obj [("analysis_summary", .str "s")]) else none

/-- C6 counterexample: in part_003 a failed per-timeframe OHLC fetch is
caught and the request still succeeds with HTTP 200 on the surviving
timeframes — partial-failure recovery, with no 500 response for the caught
error. -/
theorem C6_counterexample :
    (analyze003 c6body c6price c6ohlc c6llm c6parse "T").2.status = 200 ∧
    c6ohlc "frxEURUSD" (some 60) = .error "ws closed" ∧
    Ev3.ohlcFetch "frxEURUSD" (some 60) ∈ (analyze003 c6body c6price c6ohlc c6llm c6parse "T").1 := by
  refine ⟨?_, by decide, ?_⟩
  · rfl
  · decide

/-- Traces without LLM events are fixed by `fetchEvents3`; an appended LLM
call is dropped. -/
theorem fetchEvents3_fetchlist (sym : String) (tfs : List Json) :
    fetchEvents3 (Ev3.priceFetch sym ::
      tfs.map (fun tf => Ev3.ohlcFetch sym (TIME_FRAME_MAP (jsToString tf)))) =
      Ev3.priceFetch sym ::
        tfs.map (fun tf => Ev3.ohlcFetch sym (TIME_FRAME_MAP (jsToString tf))) := by
  apply List.filter_eq_self.mpr
  intro e he
  cases e with
  | priceFetch s => rfl
  | ohlcFetch s g => rfl
  | llmCall3 p =>
      exfalso
      rcases List.mem_cons.mp he with h | h
      · exact Ev3.noConfusion h
      · obtain ⟨tf, _, h2⟩ := List.mem_map.mp h
        exact Ev3.noConfusion h2

/-- `fetchEvents3` drops a trailing LLM call. -/
theorem fetchEvents3_append_llm (l : List Ev3) (p : String) :
    fetchEvents3 (l ++ [Ev3.llmCall3 p]) = fetchEvents3 l := by
  simp [fetchEvents3, List.filter_append]

/-- The number of LLM calls of a part_003 trace. -/
def llmCount3 (tr : List Ev3) : Nat :=
  tr.countP (fun e => match e with | .llmCall3 _ => true | _ => false)

/-- The per-timeframe OHLC fetch events contain no LLM call. -/
theorem countP_llm_map (sym : String) (tfs : List Json) :
    List.countP (fun e => match e with | Ev3.llmCall3 _ => true | _ => false)
      (tfs.map (fun tf => Ev3.ohlcFetch sym (TIME_FRAME_MAP (jsToString tf)))) = 0 := by
  induction tfs with
  | nil => rfl
  | cons t ts ih => simp [List.countP_cons, ih]

/-- C6 (amended): upstream and LLM calls are never retried — part_003 issues
exactly one price fetch and exactly one OHLC fetch per requested timeframe,
in order, whatever the fetch outcomes, and over all inputs its trace holds at
most one LLM call; but failures are not always surfaced as HTTP 500: part_003
catches each per-timeframe OHLC failure and proceeds with the timeframes that
yielded candles, relaying HTTP 200 on the survivors, and part_008 aborts its
LLM fetch after a 15-second timeout, converting the caught `AbortError` into
a fallback analysis object that the handler relays with HTTP 200. -/
theorem C6_no_retry_no_cancellation :
    (∀ (a : String) (tfs : List Json) (pj : Json)
      (price : String → Except String Json)
      (ohlc : String → Option Nat → Except String (List Json))
      (llmText : String → Except String String) (parse : String → Option Json)
      (nowIso : String),
      a ≠ "" → tfs ≠ [] → price (derivSym a) = .ok pj →
      fetchEvents3 (analyze003 ⟨some (.str a), some (.arr tfs)⟩
          price ohlc llmText parse nowIso).1 =
        Ev3.priceFetch (derivSym a) ::
          tfs.map (fun tf => Ev3.ohlcFetch (derivSym a) (TIME_FRAME_MAP (jsToString tf)))) ∧
    (∀ (body : Body3) (price : String → Except String Json)
      (ohlc : String → Option Nat → Except String (List Json))
      (llmText : String → Except String String) (parse : String → Option Json)
      (nowIso : String),
      llmCount3 (analyze003 body price ohlc llmText parse nowIso).1 ≤ 1) ∧
    (∀ (a : String) (tfs : List Json) (pj : Json) (t : String) (anl : Json)
      (price : String → Except String Json)
      (ohlc : String → Option Nat → Except String (List Json))
      (llmText : String → Except String String) (parse : String → Option Json)
      (nowIso : String),
      a ≠ "" → tfs ≠ [] → price (derivSym a) = .ok pj →
      survivors (tfs.map (fetchTf ohlc (derivSym a))) ≠ [] →
      llmText (prompt003 a (jsToString pj)
        (jsonStringify (dfgJson (tfs.map (fetchTf ohlc (derivSym a)))))) = .ok t →
      parse (trimStr t) = some anl →
      (analyze003 ⟨some (.str a), some (.arr tfs)⟩ price ohlc llmText parse nowIso).2 =
        ⟨200, .obj [("asset", .str a),
          ("timeframes", .arr ((survivors (tfs.map (fetchTf ohlc (derivSym a)))).map
            (fun it => it.timeframe))),
          ("currentPrice", pj), ("analysis", anl), ("timestamp", .str nowIso)]⟩) ∧
    (∀ (body : Body8) (ohlc : String → Nat → Except String (List Json))
      (parse : String → Option Json) (gr : Nat) (data : List Json) (p : String) (r : Json),
      truthyOpt body.symbol = true → truthyOpt body.timeframe = true →
      granularityMap8 (jsToStringOpt body.timeframe) = some gr →
      ohlc (jsToStringOpt body.symbol) gr = .ok data →
      analyzeWithGemini data (jsToStringOpt body.timeframe) .abortError parse = .ok (p, r) →
      analyze008 body ohlc .abortError parse =
        ([.ohlcFetch8 (jsToStringOpt body.symbol) gr, .llmCall8 p],
          ⟨200, .obj [("analysis", r)]⟩)) ∧
    (∀ (data : List Json) (tf : String) (parse : String → Option Json) (p : String) (r : Json),
      analyzeWithGemini data tf .abortError parse = .ok (p, r) →
      r = fallback8 "Analysis request timed out. Please try again.") := by
  refine ⟨?_, ?_, ?_, ?_, ?_⟩
  · intro a tfs pj price ohlc llmText parse nowIso ha htfs hprice
    have hif : ∀ {α : Type} (x y : α), (if false = true then x else y) = y := fun x y => rfl
    have hguard : (!truthyOpt (some (Json.str a)) || !truthyOpt (some (Json.arr tfs)) ||
        lengthPropIsZero (Json.arr tfs)) = false := by
      simp [truthyOpt, truthy, lengthPropIsZero, jsProp, ha, List.length_eq_zero, htfs]
    unfold analyze003
    simp only [hguard, hif, Option.getD]
    try dsimp only
    rw [show ("frx" ++ toUpperStr (replaceFirst (jsToStringOpt (some (.str a))) "/" "")) =
      derivSym a from rfl, hprice]
    try dsimp only
    split
    · rw [fetchEvents3_fetchlist]
    · split <;> (try split) <;>
        simp only [fetchEvents3_append_llm, fetchEvents3_fetchlist]
  · intro body price ohlc llmText parse nowIso
    unfold analyze003
    dsimp only
    repeat' split
    all_goals simp [llmCount3, List.countP_append, List.countP_cons, List.countP_nil,
      countP_llm_map, Function.comp_def]
  · intro a tfs pj t anl price ohlc llmText parse nowIso ha htfs hprice hsurv hllm hparse
    have hif : ∀ {α : Type} (x y : α), (if false = true then x else y) = y := fun x y => rfl
    have hguard : (!truthyOpt (some (Json.str a)) || !truthyOpt (some (Json.arr tfs)) ||
        lengthPropIsZero (Json.arr tfs)) = false := by
      simp [truthyOpt, truthy, lengthPropIsZero, jsProp, ha, List.length_eq_zero, htfs]
    unfold analyze003
    simp only [hguard, hif, Option.getD]
    try dsimp only
    rw [show ("frx" ++ toUpperStr (replaceFirst (jsToStringOpt (some (.str a))) "/" "")) =
      derivSym a from rfl, hprice]
    try dsimp only
    rw [if_neg (fun h => hsurv (by unfold survivors; exact List.length_eq_zero.mp h))]
    have hpr : prompt003 (jsToStringOpt (some (Json.str a))) (jsToString pj)
        (jsonStringify (.arr (((tfs.map (fetchTf ohlc (derivSym a))).filter
          (fun it => it.data.length > 0)).map
            (fun it => .obj [("timeframe", it.timeframe), ("candles", .arr it.data)])))) =
        prompt003 a (jsToString pj)
          (jsonStringify (dfgJson (tfs.map (fetchTf ohlc (derivSym a))))) := rfl
    rw [hpr, hllm]
    try dsimp only
    rw [hparse]
    rfl
  · intro body ohlc parse gr data p r hs ht hg ho hawg
    simp [analyze008, hs, ht, hg, ho, hawg]
  · intro data tf parse p r h
    unfold analyzeWithGemini at h
    cases hm : List.mapM tickLine8 data with
    | error e => rw [hm] at h; simp [errBind] at h
    | ok lines =>
        rw [hm] at h
        simp [okBind, pureIsOk] at h
        exact h.2.symm

/-- The prompt part_008 sends for an empty candle list on the 1h timeframe. -/
def c6p8 : String := prompt008chunk0 ++ "1h" ++ prompt008chunk1 ++ "" ++ prompt008chunk2

/-- The analysis object part_008 returns when the Gemini fetch aborts. -/
def c6r8 : Json :=
  match analyzeWithGemini [] "1h" .abortError c6parse with
  | .ok (_, r) => r
  | .error _ => .null

/-- Witness for C6: the amended theorem applied to the concrete mocked
request of the counterexample. -/
theorem C6_witness :
    (fetchEvents3 (analyze003 c6body c6price c6ohlc c6llm c6parse "T").1 =
      Ev3.priceFetch (derivSym "EUR/USD") ::
        [Json.str "1m", Json.str "1h"].map
          (fun tf => Ev3.ohlcFetch (derivSym "EUR/USD") (TIME_FRAME_MAP (jsToString tf)))) ∧
    llmCount3 (analyze003 c6body c6price c6ohlc c6llm c6parse "T").1 ≤ 1 ∧
    ((analyze003 c6body c6price c6ohlc c6llm c6parse "T").2 =
      ⟨200, .obj [("asset", .str "EUR/USD"),
        ("timeframes", .arr ((survivors ([Json.str "1m", Json.str "1h"].map
          (fetchTf c6ohlc (derivSym "EUR/USD")))).map (fun it => it.timeframe))),
        ("currentPrice", .num 1), ("analysis", .obj [("analysis_summary", .str "s")]),
        ("timestamp", .str "T")]⟩) ∧
    (analyze008 ⟨some (.str "R_50"), some (.str "1h")⟩ (fun _ _ => .ok []) .abortError
      c6parse = ([.ohlcFetch8 "R_50" 3600, .llmCall8 c6p8],
        ⟨200, .obj [("analysis", c6r8)]⟩)) ∧
    c6r8 = fallback8 "Analysis request timed out. Please try again." := by
  refine ⟨?_, ?_, ?_, ?_, ?_⟩
  · exact C6_no_retry_no_cancellation.1 "EUR/USD" [Json.str "1m", Json.str "1h"]
      (.num 1) c6price c6ohlc c6llm c6parse "T" (by decide) (by decide) (by decide)
  · exact C6_no_retry_no_cancellation.2.1 c6body c6price c6ohlc c6llm c6parse "T"
  · exact C6_no_retry_no_cancellation.2.2.1 "EUR/USD" [Json.str "1m", Json.str "1h"]
      (.num 1) "J" (.obj [("analysis_summary", .str "s")]) c6price c6ohlc c6llm
      c6parse "T" (by decide) (by decide) (by decide) (by decide) rfl (by decide)
  · exact C6_no_retry_no_cancellation.2.2.2.1 ⟨some (.str "R_50"), some (.str "1h")⟩
      (fun _ _ => .ok []) c6parse 3600 [] c6p8 c6r8 (by decide) (by decide) rfl rfl rfl
  · exact C6_no_retry_no_cancellation.2.2.2.2 [] "1h" c6parse c6p8 c6r8 rfl
